import Mathlib

/-
  Verification of the container-exec-mcp repository.

  The TypeScript sources are shallowly embedded:
  * byte buffers are `List Nat` (each entry a byte value),
  * JavaScript strings are `List Char`,
  * the Docker daemon, the host filesystem and the in-container shell are
    oracles packaged in a `World` record,
  * fallible code returns `Except JSException _`.
-/

set_option maxHeartbeats 1000000
set_option linter.unusedVariables false
set_option linter.unreachableTactic false
set_option linter.unusedTactic false

/-- Convert a Lean string literal to the `List Char` representation used for
JavaScript strings throughout this development. -/
def str (s : String) : List Char := s.data

/-- The single-quote character (written via its code point to keep source
literals free of quoting subtleties). -/
def squote : Char := Char.ofNat 39

/-- The backslash character. -/
def bslash : Char := Char.ofNat 92

/-- The newline character. -/
def nlChar : Char := Char.ofNat 10

/-- The dollar character, special in JavaScript replacement strings. -/
def dollarChar : Char := Char.ofNat 36

/-- The backtick character. -/
def btickChar : Char := Char.ofNat 96

/-- The double-quote character. -/
def dquoteChar : Char := Char.ofNat 34

/-- The space character. -/
def spaceChar : Char := Char.ofNat 32

/-- Concatenation of the images of a list under a list-valued function. -/
def concatMap (f : α → List β) : List α → List β
  | [] => []
  | a :: l => f a ++ concatMap f l

/-- The U+FFFD replacement character produced by lossy UTF-8 decoding. -/
def replChar : Char := Char.ofNat 65533

/-- Lossy UTF-8 decoding of a byte sequence, as performed by
`Buffer.prototype.toString()`: invalid bytes decode to U+FFFD and decoding
resumes at the next byte. -/
def utf8Decode : List Nat → List Char
  | [] => []
  | b :: rest =>
    if b < 128 then Char.ofNat b :: utf8Decode rest
    else if b < 194 then replChar :: utf8Decode rest
    else if b < 224 then
      match rest with
      | [] => [replChar]
      | b2 :: r2 =>
        if 128 ≤ b2 ∧ b2 < 192 then
          Char.ofNat ((b - 192) * 64 + (b2 - 128)) :: utf8Decode r2
        else replChar :: utf8Decode (b2 :: r2)
    else if b < 240 then
      match rest with
      | [] => [replChar]
      | b2 :: r2 =>
        if (if b = 224 then 160 ≤ b2 ∧ b2 < 192
            else if b = 237 then 128 ≤ b2 ∧ b2 < 160
            else 128 ≤ b2 ∧ b2 < 192) then
          match r2 with
          | [] => [replChar]
          | b3 :: r3 =>
            if 128 ≤ b3 ∧ b3 < 192 then
              Char.ofNat ((b - 224) * 4096 + (b2 - 128) * 64 + (b3 - 128)) :: utf8Decode r3
            else replChar :: utf8Decode (b3 :: r3)
        else replChar :: utf8Decode (b2 :: r2)
    else if b < 245 then
      match rest with
      | [] => [replChar]
      | b2 :: r2 =>
        if (if b = 240 then 144 ≤ b2 ∧ b2 < 192
            else if b = 244 then 128 ≤ b2 ∧ b2 < 144
            else 128 ≤ b2 ∧ b2 < 192) then
          match r2 with
          | [] => [replChar]
          | b3 :: r3 =>
            if 128 ≤ b3 ∧ b3 < 192 then
              match r3 with
              | [] => [replChar]
              | b4 :: r4 =>
                if 128 ≤ b4 ∧ b4 < 192 then
                  Char.ofNat ((b - 240) * 262144 + (b2 - 128) * 4096 + (b3 - 128) * 64 + (b4 - 128))
                    :: utf8Decode r4
                else replChar :: utf8Decode (b4 :: r4)
            else replChar :: utf8Decode (b3 :: r3)
        else replChar :: utf8Decode (b2 :: r2)
    else replChar :: utf8Decode rest

/-- `Buffer.prototype.readUInt32BE`: big-endian 32-bit read at index `i`
(out-of-range bytes read as 0; the source only calls it in range). -/
def readUInt32BE (data : List Nat) (i : Nat) : Nat :=
  data.getD i 0 * 16777216 + data.getD (i + 1) 0 * 65536
    + data.getD (i + 2) 0 * 256 + data.getD (i + 3) 0

/-- The scanning loop of `parseDockerStream` (src/unnamed/part_002 lines
66-91): starting at `offset`, read a 1-byte stream tag, skip 3 reserved
bytes, read a 4-byte big-endian payload size, and accumulate the decoded
payload into the stdout component (tag 1) or the stderr component (tag 2);
stop when fewer than 8 bytes remain or the declared payload overruns the
buffer. -/
def parseLoop (data : List Nat) (offset : Nat) : List Char × List Char :=
  if _h1 : offset < data.length then
    if offset + 8 > data.length then ([], [])
    else if _h3 : offset + 8 + readUInt32BE data (offset + 4) > data.length then ([], [])
    else if data.getD offset 0 = 1 then
      (utf8Decode ((data.drop (offset + 8)).take (readUInt32BE data (offset + 4)))
         ++ (parseLoop data (offset + 8 + readUInt32BE data (offset + 4))).1,
       (parseLoop data (offset + 8 + readUInt32BE data (offset + 4))).2)
    else if data.getD offset 0 = 2 then
      ((parseLoop data (offset + 8 + readUInt32BE data (offset + 4))).1,
       utf8Decode ((data.drop (offset + 8)).take (readUInt32BE data (offset + 4)))
         ++ (parseLoop data (offset + 8 + readUInt32BE data (offset + 4))).2)
    else parseLoop data (offset + 8 + readUInt32BE data (offset + 4))
  else ([], [])
termination_by data.length - offset
decreasing_by all_goals omega

/-- `parseDockerStream` from src/unnamed/part_002: demultiplex Docker's
combined exec stream into (stdout, stderr). -/
def parseDockerStream (data : List Nat) : List Char × List Char :=
  parseLoop data 0

/-- The same scanning loop with an explicit iteration budget; `none` means
the budget was exhausted before the loop exited. -/
def parseLoopFuel : Nat → List Nat → Nat → Option (List Char × List Char)
  | 0, _, _ => none
  | fuel + 1, data, offset =>
    if offset < data.length then
      if offset + 8 > data.length then some ([], [])
      else if offset + 8 + readUInt32BE data (offset + 4) > data.length then some ([], [])
      else
        match parseLoopFuel fuel data (offset + 8 + readUInt32BE data (offset + 4)) with
        | none => none
        | some rest =>
          if data.getD offset 0 = 1 then
            some (utf8Decode ((data.drop (offset + 8)).take (readUInt32BE data (offset + 4)))
                    ++ rest.1, rest.2)
          else if data.getD offset 0 = 2 then
            some (rest.1,
                  utf8Decode ((data.drop (offset + 8)).take (readUInt32BE data (offset + 4)))
                    ++ rest.2)
          else some rest
    else some ([], [])

/-- One frame of Docker's multiplexed attach stream: a stream-type tag, three
reserved bytes, and a payload (the 4-byte length field is derived from the
payload on encoding). -/
structure DockerFrame where
  tag : Nat
  res1 : Nat
  res2 : Nat
  res3 : Nat
  payload : List Nat

/-- Big-endian 4-byte encoding of a 32-bit length. -/
def encBE32 (n : Nat) : List Nat :=
  [n / 16777216 % 256, n / 65536 % 256, n / 256 % 256, n % 256]

/-- Serialise one frame: tag, three reserved bytes, big-endian payload
length, payload. -/
def encodeFrame (f : DockerFrame) : List Nat :=
  f.tag :: f.res1 :: f.res2 :: f.res3 :: (encBE32 f.payload.length ++ f.payload)

/-- A trailing byte suffix too short to contain a full header, or whose
declared payload overruns the remaining bytes. -/
def shortTail (rest : List Nat) : Prop :=
  rest.length < 8 ∨ rest.length < 8 + readUInt32BE rest 4

instance (rest : List Nat) : Decidable (shortTail rest) := by
  unfold shortTail; infer_instance

lemma getD_drop (l : List α) (n i : Nat) (d : α) :
    (l.drop n).getD i d = l.getD (n + i) d := by
  induction l generalizing n i with
  | nil => simp
  | cons a t ih =>
    cases n with
    | zero => simp
    | succ m => simp [Nat.succ_add, ih m i]

lemma readUInt32BE_drop (data : List Nat) (k : Nat) :
    readUInt32BE (data.drop k) 4 = readUInt32BE data (k + 4) := by
  simp [readUInt32BE, getD_drop, Nat.add_assoc]

lemma parseLoop_shift_aux (m : Nat) : ∀ (data : List Nat) (k : Nat),
    data.length - k ≤ m → parseLoop data k = parseLoop (data.drop k) 0 := by
  induction m with
  | zero =>
    intro data k h
    unfold parseLoop
    have h1 : ¬ (k < data.length) := by omega
    have h2 : ¬ (0 < (data.drop k).length) := by simp; omega
    simp [h1, h2]
  | succ m ih =>
    intro data k h
    by_cases h1 : k < data.length
    · have h1' : 0 < (data.drop k).length := by simp; omega
      unfold parseLoop
      rw [dif_pos h1, dif_pos h1']
      by_cases h2 : k + 8 > data.length
      · have h2' : 0 + 8 > (data.drop k).length := by simp; omega
        rw [if_pos h2, if_pos h2']
      · have h2' : ¬ (0 + 8 > (data.drop k).length) := by simp; omega
        rw [if_neg h2, if_neg h2']
        have hsz : readUInt32BE (data.drop k) (0 + 4) = readUInt32BE data (k + 4) := by
          rw [Nat.zero_add, readUInt32BE_drop]
        rw [hsz]
        have hlen : (data.drop k).length = data.length - k := by simp
        by_cases h3 : k + 8 + readUInt32BE data (k + 4) > data.length
        · have h3' : 0 + 8 + readUInt32BE data (k + 4) > (data.drop k).length := by
            rw [hlen]; omega
          rw [dif_pos h3, dif_pos h3']
        · have h3' : ¬ (0 + 8 + readUInt32BE data (k + 4) > (data.drop k).length) := by
            rw [hlen]; omega
          rw [dif_neg h3, dif_neg h3']
          have htag : (data.drop k).getD 0 0 = data.getD k 0 := by
            rw [getD_drop, Nat.add_zero]
          have hchunk : (data.drop k).drop (0 + 8) = data.drop (k + 8) := by
            rw [List.drop_drop]
          have harg : k + (0 + 8 + readUInt32BE data (k + 4))
              = k + 8 + readUInt32BE data (k + 4) := by omega
          have hrec : parseLoop (data.drop k) (0 + 8 + readUInt32BE data (k + 4))
              = parseLoop data (k + 8 + readUInt32BE data (k + 4)) := by
            rw [ih (data.drop k) (0 + 8 + readUInt32BE data (k + 4)) (by rw [hlen]; omega),
                ih data (k + 8 + readUInt32BE data (k + 4)) (by omega), List.drop_drop, harg]
          rw [htag, hchunk, hrec]
    · have h1' : ¬ (0 < (data.drop k).length) := by simp; omega
      unfold parseLoop
      rw [dif_neg h1, dif_neg h1']

lemma parseLoop_shift (data : List Nat) (k : Nat) :
    parseLoop data k = parseLoop (data.drop k) 0 :=
  parseLoop_shift_aux (data.length - k) data k (Nat.le_refl _)

lemma parseDockerStream_shortTail (rest : List Nat) (h : shortTail rest) :
    parseDockerStream rest = ([], []) := by
  unfold parseDockerStream parseLoop
  rcases h with h | h
  · by_cases h1 : 0 < rest.length
    · rw [dif_pos h1, if_pos (by omega)]
    · rw [dif_neg h1]
  · by_cases h1 : 0 < rest.length
    · rw [dif_pos h1]
      by_cases h2 : 0 + 8 > rest.length
      · rw [if_pos h2]
      · rw [if_neg h2, dif_pos (by simpa [Nat.zero_add] using h)]
    · rw [dif_neg h1]

lemma encodeFrame_expand (f : DockerFrame) (rest : List Nat) :
    encodeFrame f ++ rest = f.tag :: f.res1 :: f.res2 :: f.res3 ::
      (f.payload.length / 16777216 % 256) :: (f.payload.length / 65536 % 256) ::
      (f.payload.length / 256 % 256) :: (f.payload.length % 256) :: (f.payload ++ rest) := by
  simp [encodeFrame, encBE32]

lemma parseDockerStream_encodeFrame (f : DockerFrame) (rest : List Nat)
    (h : f.payload.length < 4294967296) :
    parseDockerStream (encodeFrame f ++ rest) =
      (if f.tag = 1 then
        (utf8Decode f.payload ++ (parseDockerStream rest).1, (parseDockerStream rest).2)
       else if f.tag = 2 then
        ((parseDockerStream rest).1, utf8Decode f.payload ++ (parseDockerStream rest).2)
       else parseDockerStream rest) := by
  have hL : (encodeFrame f ++ rest).length = 8 + f.payload.length + rest.length := by
    simp [encodeFrame, encBE32]
    omega
  have hsz : readUInt32BE (encodeFrame f ++ rest) (0 + 4) = f.payload.length := by
    rw [encodeFrame_expand]
    show readUInt32BE _ 4 = _
    simp only [readUInt32BE, List.getD_cons_succ, List.getD_cons_zero]
    omega
  have htag : (encodeFrame f ++ rest).getD 0 0 = f.tag := by
    rw [encodeFrame_expand]
    rfl
  have hchunk : ((encodeFrame f ++ rest).drop (0 + 8)).take f.payload.length = f.payload := by
    rw [encodeFrame_expand]
    show (f.payload ++ rest).take f.payload.length = f.payload
    exact List.take_left _ _
  have hrec : parseLoop (encodeFrame f ++ rest) (0 + 8 + f.payload.length)
      = parseDockerStream rest := by
    rw [parseLoop_shift]
    show parseLoop _ 0 = parseLoop rest 0
    congr 1
    rw [encodeFrame_expand]
    have he : 0 + 8 + f.payload.length = f.payload.length + 8 := by omega
    rw [he]
    show (f.payload ++ rest).drop f.payload.length = rest
    exact List.drop_left _ _
  show parseLoop (encodeFrame f ++ rest) 0 = _
  unfold parseLoop
  rw [dif_pos (show 0 < (encodeFrame f ++ rest).length by rw [hL]; omega),
      if_neg (show ¬ (0 + 8 > (encodeFrame f ++ rest).length) by rw [hL]; omega),
      hsz,
      dif_neg (show ¬ (0 + 8 + f.payload.length > (encodeFrame f ++ rest).length) by
        rw [hL]; omega),
      htag, hchunk, hrec]

/-- Per-stream payload concatenation demanded by the specification: the
in-order concatenation of the (decoded) payloads of all frames whose tag is
`t`. -/
def specStreamConcat (t : Nat) : List DockerFrame → List Char
  | [] => []
  | f :: fs => (if f.tag = t then utf8Decode f.payload else []) ++ specStreamConcat t fs

/-- C1: for every byte buffer made of complete frames followed by a short
tail, `parseDockerStream` returns exactly the in-order concatenation of the
tag-1 payloads as stdout and of the tag-2 payloads as stderr; frames with any
other tag contribute to neither, and the short tail is ignored without
error. -/
theorem parseDockerStream_demux (frames : List DockerFrame) (rest : List Nat)
    (hf : ∀ f ∈ frames, f.payload.length < 4294967296) (ht : shortTail rest) :
    parseDockerStream (concatMap encodeFrame frames ++ rest)
      = (specStreamConcat 1 frames, specStreamConcat 2 frames) := by
  induction frames with
  | nil =>
    simp only [concatMap, List.nil_append, specStreamConcat]
    exact parseDockerStream_shortTail rest ht
  | cons f fs ih =>
    have hfp : f.payload.length < 4294967296 := hf f (by simp)
    have hrest : ∀ g ∈ fs, g.payload.length < 4294967296 := fun g hg => hf g (by simp [hg])
    simp only [concatMap, List.append_assoc]
    rw [parseDockerStream_encodeFrame f (concatMap encodeFrame fs ++ rest) hfp, ih hrest]
    by_cases h1 : f.tag = 1
    · simp [specStreamConcat, h1]
    · by_cases h2 : f.tag = 2
      · simp [specStreamConcat, h1, h2]
      · simp [specStreamConcat, h1, h2]

/-- A concrete frame sequence used to witness C1. -/
def c1Frames : List DockerFrame :=
  [⟨1, 0, 0, 0, [72, 105]⟩, ⟨2, 9, 9, 9, [33]⟩, ⟨7, 0, 0, 0, [65]⟩, ⟨1, 0, 0, 0, [66]⟩]

/-- A concrete truncated tail used to witness C1. -/
def c1Tail : List Nat := [1, 0, 0]

/-- Witness for C1 at a concrete buffer: two stdout frames, one stderr frame,
one unknown-tag frame and a truncated tail. -/
theorem parseDockerStream_demux_witness :
    parseDockerStream (concatMap encodeFrame c1Frames ++ c1Tail)
      = (specStreamConcat 1 c1Frames, specStreamConcat 2 c1Frames) :=
  parseDockerStream_demux c1Frames c1Tail (by decide) (by decide)

lemma parseLoopFuel_complete (fuel : Nat) : ∀ (data : List Nat) (offset : Nat),
    data.length - offset < 8 * fuel →
    parseLoopFuel fuel data offset = some (parseLoop data offset) := by
  induction fuel with
  | zero =>
    intro data offset h
    simp at h
  | succ fuel ih =>
    intro data offset h
    unfold parseLoopFuel parseLoop
    by_cases h1 : offset < data.length
    · rw [if_pos h1, dif_pos h1]
      by_cases h2 : offset + 8 > data.length
      · rw [if_pos h2, if_pos h2]
      · rw [if_neg h2, if_neg h2]
        by_cases h3 : offset + 8 + readUInt32BE data (offset + 4) > data.length
        · rw [if_pos h3, dif_pos h3]
        · rw [if_neg h3, dif_neg h3]
          rw [ih data (offset + 8 + readUInt32BE data (offset + 4)) (by omega)]
          dsimp only
          by_cases h4 : data.getD offset 0 = 1
          · rw [if_pos h4, if_pos h4]
          · rw [if_neg h4, if_neg h4]
            by_cases h5 : data.getD offset 0 = 2
            · rw [if_pos h5, if_pos h5]
            · rw [if_neg h5, if_neg h5]
    · rw [if_neg h1, dif_neg h1]

/-- C9: the scan of `parseDockerStream` terminates on every finite buffer:
each iteration either stops or advances the offset by at least 8 bytes, so a
budget of `length / 8 + 1` iterations always completes and yields the value
of the unbounded loop. -/
theorem parseDockerStream_terminates (data : List Nat) :
    parseLoopFuel (data.length / 8 + 1) data 0 = some (parseDockerStream data) :=
  parseLoopFuel_complete _ data 0 (by omega)

/-- The global regex replacement `arg.replace(/x/g, repl)` for a
single-character pattern `x` and a replacement string free of `$` escapes,
as performed inside `escapeShellArg`. -/
def replaceCharAll (pat : Char) (repl : List Char) : List Char → List Char
  | [] => []
  | c :: r => (if c = pat then repl else [c]) ++ replaceCharAll pat repl r

/-- The four-character sequence substituted for each embedded single quote
by `escapeShellArg`: close the quotes, emit a backslash-escaped quote,
reopen the quotes. -/
def quoteRepl : List Char := [squote, bslash, squote, squote]

/-- `escapeShellArg` from the code-editing server (src/tools.md lines
571-573): wrap the argument in single quotes after replacing every embedded
single quote by `quoteRepl`. -/
def escapeShellArg (arg : List Char) : List Char :=
  squote :: (replaceCharAll squote quoteRepl arg ++ [squote])

/-- The escape the specification describes for C3: wrap in single quotes and
double each embedded single quote. -/
def doubledQuoteEscape (arg : List Char) : List Char :=
  squote :: (replaceCharAll squote [squote, squote] arg ++ [squote])

lemma replaceCharAll_eq (pat : Char) (repl : List Char) (s : List Char) :
    replaceCharAll pat repl s
      = concatMap (fun c => if c = pat then repl else [c]) s := by
  induction s with
  | nil => rfl
  | cons c r ih => simp [replaceCharAll, concatMap, ih]

/-- Characters that the POSIX shell does not take literally outside of
quotes (expansion or word-breaking metacharacters). -/
def isShellSpecial (c : Char) : Bool :=
  c == dquoteChar || c == btickChar || c == dollarChar || c == Char.ofNat 124
    || c == Char.ofNat 38 || c == Char.ofNat 59 || c == Char.ofNat 60
    || c == Char.ofNat 62 || c == Char.ofNat 40 || c == Char.ofNat 41
    || c == Char.ofNat 42 || c == Char.ofNat 63 || c == Char.ofNat 91
    || c == nlChar || c == Char.ofNat 9

/-- Modelled from the spec: POSIX single-quote word semantics (the shell
that evaluates the escaped argument is external to the repository).
`readWord inQ s` performs quote removal on one shell word at the front of
`s` — `inQ` records whether scanning is inside single quotes — returning
the literal word value and the rest of the input (starting at the
terminating unquoted space, if any); `none` models an unterminated quote, a
trailing backslash or an unquoted metacharacter. -/
def readWord : Bool → List Char → Option (List Char × List Char)
  | true, [] => none
  | true, c :: r =>
    if c = squote then readWord false r
    else Option.map (fun p => (c :: p.1, p.2)) (readWord true r)
  | false, [] => some ([], [])
  | false, c :: r =>
    if c = squote then readWord true r
    else if c = bslash then
      match r with
      | [] => none
      | d :: r2 => Option.map (fun p => (d :: p.1, p.2)) (readWord false r2)
    else if c = spaceChar then some ([], c :: r)
    else if isShellSpecial c then none
    else Option.map (fun p => (c :: p.1, p.2)) (readWord false r)

/-- Modelled from the spec: evaluating a whole string as a single shell
word — quote removal must consume the entire input. -/
def shellEvalWord (s : List Char) : Option (List Char) :=
  match readWord false s with
  | some (w, []) => some w
  | _ => none

lemma readWord_true_squote (r : List Char) :
    readWord true (squote :: r) = readWord false r := by
  simp [readWord]

lemma readWord_true_other (c : Char) (r : List Char) (h : ¬ (c = squote)) :
    readWord true (c :: r) = Option.map (fun p => (c :: p.1, p.2)) (readWord true r) := by
  simp [readWord, h]

lemma readWord_false_squote (r : List Char) :
    readWord false (squote :: r) = readWord true r := by
  rw [readWord.eq_def]
  simp

lemma readWord_false_bslash (d : Char) (r : List Char) :
    readWord false (bslash :: d :: r)
      = Option.map (fun p => (d :: p.1, p.2)) (readWord false r) := by
  rw [readWord.eq_def]
  simp [show ¬ (bslash = squote) from by decide]

lemma readWord_escape_aux (s : List Char) : ∀ rest : List Char,
    readWord true (replaceCharAll squote quoteRepl s ++ squote :: rest)
      = Option.map (fun p => (s ++ p.1, p.2)) (readWord false rest) := by
  induction s with
  | nil =>
    intro rest
    rw [replaceCharAll, List.nil_append, readWord_true_squote]
    cases h : readWord false rest with
    | none => rfl
    | some p => simp
  | cons c cs ih =>
    intro rest
    by_cases hc : c = squote
    · subst hc
      show readWord true ((quoteRepl ++ replaceCharAll squote quoteRepl cs) ++ squote :: rest) = _
      have hshape : (quoteRepl ++ replaceCharAll squote quoteRepl cs) ++ squote :: rest
          = squote :: bslash :: squote :: squote
              :: (replaceCharAll squote quoteRepl cs ++ squote :: rest) := by
        simp [quoteRepl]
      rw [hshape, readWord_true_squote, readWord_false_bslash, readWord_false_squote, ih]
      cases h : readWord false rest with
      | none => rfl
      | some p => simp
    · have hstep : replaceCharAll squote quoteRepl (c :: cs)
          = [c] ++ replaceCharAll squote quoteRepl cs := by
        rw [replaceCharAll, if_neg hc]
      have hshape : ([c] ++ replaceCharAll squote quoteRepl cs) ++ squote :: rest
          = c :: (replaceCharAll squote quoteRepl cs ++ squote :: rest) := by simp
      rw [hstep, hshape, readWord_true_other c _ hc, ih]
      cases h : readWord false rest with
      | none => rfl
      | some p => simp

/-- C2: evaluating `escapeShellArg s` as a single shell word under POSIX
single-quote semantics yields exactly `s`, for every string `s`. -/
theorem escapeShellArg_roundtrip (s : List Char) :
    shellEvalWord (escapeShellArg s) = some s := by
  unfold shellEvalWord escapeShellArg
  rw [show squote :: (replaceCharAll squote quoteRepl s ++ [squote])
        = squote :: (replaceCharAll squote quoteRepl s ++ squote :: []) from rfl,
      readWord_false_squote, readWord_escape_aux s []]
  simp [readWord]

/-- C3 counterexample: on the input a-quote-b, `escapeShellArg` does not
produce the quote-doubling form the claim asserts. -/
theorem escapeShellArg_not_doubling :
    escapeShellArg (str ("a") ++ [squote] ++ str ("b"))
      ≠ doubledQuoteEscape (str ("a") ++ [squote] ++ str ("b")) := by
  decide

/-- C3 (amended): `escapeShellArg s` equals a single quote, then `s` with
every embedded single quote replaced by the four-character sequence
quote-backslash-quote-quote, then a closing single quote. -/
theorem escapeShellArg_quote_escape_shape (s : List Char) :
    escapeShellArg s
      = [squote] ++ concatMap (fun c => if c = squote then [squote, bslash, squote, squote]
          else [c]) s ++ [squote] := by
  unfold escapeShellArg
  rw [replaceCharAll_eq]
  simp [quoteRepl]

/-- The forward-slash character. -/
def slashChar : Char := Char.ofNat 47

/-- A thrown JavaScript value: an `Error` object carrying a message, or any
other thrown value. -/
inductive JSException where
  | errObj : List Char → JSException
  | other : JSException
deriving DecidableEq

/-- `error instanceof Error ? error.message : fallback`. -/
def messageOr (fallback : List Char) : JSException → List Char
  | JSException.errObj m => m
  | JSException.other => fallback

/-- One MCP content item; every handler in this repository produces text. -/
inductive ContentItem where
  | text : List Char → ContentItem
deriving DecidableEq

/-- MCP `CallToolResult`. -/
structure CallToolResult where
  content : List ContentItem
deriving DecidableEq

/-- The `{ content: [{ type: 'text', text: s }] }` value every handler
returns. -/
def textResult (s : List Char) : CallToolResult :=
  ⟨[ContentItem.text s]⟩

/-- `true` iff the protocol layer received a normal (non-exceptional) result
whose content is a single text item. -/
def isSingleTextOk : Except JSException CallToolResult → Bool
  | Except.ok r =>
    match r.content with
    | [ContentItem.text _] => true
    | _ => false
  | Except.error _ => false

/-- Decimal rendering of a natural number, as JavaScript prints it. -/
def natToChars (n : Nat) : List Char := Nat.toDigits 10 n

/-- Decimal rendering of an integer. -/
def intToChars (i : Int) : List Char :=
  if i < 0 then Char.ofNat 45 :: natToChars i.natAbs else natToChars i.natAbs

/-- Template interpolation of a possibly-null exit code (`null` prints as
the string "null"). -/
def exitCodeStr : Option Int → List Char
  | none => str ("null")
  | some i => intToChars i

/-- Template interpolation of a boolean. -/
def boolStr (b : Bool) : List Char :=
  if b then str ("true") else str ("false")

/-- JavaScript whitespace recognised by `String.prototype.trim`. -/
def isJsWhitespace (c : Char) : Bool :=
  c == spaceChar || c == nlChar || c == Char.ofNat 9 || c == Char.ofNat 13
    || c == Char.ofNat 12 || c == Char.ofNat 11

/-- `String.prototype.trim`. -/
def jsTrim (s : List Char) : List Char :=
  ((s.dropWhile isJsWhitespace).reverse.dropWhile isJsWhitespace).reverse

/-- `String.prototype.split` with a single-character separator (empty
pieces are kept, as in JavaScript). -/
def splitOnChar (sep : Char) : List Char → List (List Char)
  | [] => [[]]
  | c :: r =>
    if c = sep then [] :: splitOnChar sep r
    else
      match splitOnChar sep r with
      | [] => [[c]]
      | l :: ls => (c :: l) :: ls

/-- `content.split('\n')`. -/
def splitLines (s : List Char) : List (List Char) := splitOnChar nlChar s

/-- `Array.prototype.join` with separator `sep`. -/
def joinSep (sep : List Char) : List (List Char) → List Char
  | [] => []
  | [l] => l
  | l :: ls => l ++ sep ++ joinSep sep ls

/-- `String.prototype.padStart`. -/
def padStart (n : Nat) (c : Char) (s : List Char) : List Char :=
  List.replicate (n - s.length) c ++ s

/-- `Array.prototype.slice(s, e)` with JavaScript index clamping (negative
indices count from the end). -/
def jsSlice (l : List α) (s e : Int) : List α :=
  (l.take (if e < 0 then (l.length + e).toNat else min e.toNat l.length)).drop
    (if s < 0 then (l.length + s).toNat else min s.toNat l.length)

/-- Number of non-overlapping occurrences of `pat` in `s`, scanning left to
right (the count both `split` and `replaceAll` act on); 0 for an empty
pattern. -/
def countOccSkip : List Char → Nat → List Char → Nat
  | [], _, _ => 0
  | _ :: rest, Nat.succ k, pat => countOccSkip rest k pat
  | c :: rest, 0, pat =>
    if ((!pat.isEmpty) && pat.isPrefixOf (c :: rest)) = true then
      1 + countOccSkip rest (pat.length - 1) pat
    else countOccSkip rest 0 pat

/-- The number of non-overlapping occurrences of `pat` (one fewer than the
JavaScript split length): after a match the scan resumes past the matched
text, which `countOccSkip` realises by skipping `pat.length - 1` characters
beyond the matched head. -/
def countOcc (s pat : List Char) : Nat := countOccSkip s 0 pat

/-- `s.split(pat).length` in JavaScript (an empty separator splits into the
individual characters). -/
def jsSplitLen (s pat : List Char) : Nat :=
  if pat.isEmpty then s.length else countOcc s pat + 1

/-- `String.prototype.includes`. -/
def jsIncludes (s pat : List Char) : Bool :=
  if pat.isEmpty then true else !(countOcc s pat == 0)

/-- `GetSubstitution` of the JavaScript specification for a string pattern
(no capture groups): interpret `$$`, `$&`, the dollar-backtick escape (text
before the match) and the dollar-quote escape (text after the match) in the
replacement string; any other `$` is literal. -/
def getSubstitution (matched before after : List Char) : List Char → List Char
  | [] => []
  | c :: r =>
    if c = dollarChar then
      match r with
      | [] => [c]
      | d :: r2 =>
        if d = dollarChar then dollarChar :: getSubstitution matched before after r2
        else if d = Char.ofNat 38 then matched ++ getSubstitution matched before after r2
        else if d = btickChar then before ++ getSubstitution matched before after r2
        else if d = squote then after ++ getSubstitution matched before after r2
        else c :: getSubstitution matched before after (d :: r2)
    else c :: getSubstitution matched before after r

/-- The scan of `String.prototype.replace` with a string pattern: find the
first occurrence of `pat`, substitute the replacement there; `before` is the
already-scanned original prefix ( needed by the replacement escapes). -/
def replaceOnceGo (pat repl : List Char) : List Char → List Char → Option (List Char)
  | _, [] => none
  | before, c :: rem =>
    if pat.isPrefixOf (c :: rem) then
      some (before ++ getSubstitution pat before ((c :: rem).drop pat.length) repl
            ++ (c :: rem).drop pat.length)
    else replaceOnceGo pat repl (before ++ [c]) rem

/-- `content.replace(old, new)` for string arguments: replace the first
occurrence (with `$` escapes interpreted); if there is none, return the
string unchanged; an empty pattern matches at position 0. -/
def jsReplaceOnce (s pat repl : List Char) : List Char :=
  if pat.isEmpty then getSubstitution [] [] s repl ++ s
  else
    match replaceOnceGo pat repl [] s with
    | some res => res
    | none => s

/-- The scan of `String.prototype.replaceAll` for a nonempty string
pattern: replace every non-overlapping occurrence left to right. -/
def replaceAllGo (pat repl : List Char) : List Char → List Char → List Char
  | _, [] => []
  | before, c :: rem =>
    if h : ((!pat.isEmpty) && pat.isPrefixOf (c :: rem)) = true then
      getSubstitution pat before ((c :: rem).drop pat.length) repl
        ++ replaceAllGo pat repl (before ++ pat) ((c :: rem).drop pat.length)
    else c :: replaceAllGo pat repl (before ++ [c]) rem
termination_by _ rem => rem.length
decreasing_by
  · simp at h
    simp
    cases pat with
    | nil => simp at h
    | cons a l => simp
  · simp

/-- The empty-pattern case of `replaceAll`: the replacement is inserted at
every position of the string. -/
def replAllEmptyGo (repl : List Char) : List Char → List Char → List Char
  | before, [] => getSubstitution [] before [] repl
  | before, c :: rem =>
    getSubstitution [] before (c :: rem) repl ++ c :: replAllEmptyGo repl (before ++ [c]) rem

/-- `content.replaceAll(old, new)` for string arguments. -/
def jsReplaceAll (s pat repl : List Char) : List Char :=
  if pat.isEmpty then replAllEmptyGo repl [] s
  else replaceAllGo pat repl [] s

/-- One entry of a container summary's `Ports` array (dockerode). `proto`
embeds the summary's `Type` field. -/
structure PortInfo where
  IP : List Char
  PublicPort : Option Nat
  PrivatePort : Nat
  proto : List Char
deriving DecidableEq

/-- One element of `docker.listContainers`' result. -/
structure ContainerSummary where
  Names : List (List Char)
  Id : List Char
  Image : List Char
  State : List Char
  Status : List Char
  Ports : List PortInfo
deriving DecidableEq

/-- `HostConfig.RestartPolicy` of an inspect result. -/
structure RestartPolicyInfo where
  Name : List Char
  MaximumRetryCount : Int
deriving DecidableEq

/-- `HostConfig` of an inspect result (absent numeric fields read as 0,
which is also how JavaScript truthiness treats them). -/
structure HostConfigInfo where
  Memory : Int
  CpuShares : Int
  NanoCpus : Int
  RestartPolicy : Option RestartPolicyInfo
deriving DecidableEq

/-- `State` of an inspect result. -/
structure ContainerStateInfo where
  Status : List Char
  Running : Bool
  Paused : Bool
  Restarting : Bool
  Pid : Int
  ExitCode : Int
  StartedAt : List Char
  FinishedAt : List Char
deriving DecidableEq

/-- One mount record of an inspect result; `mountType` embeds the `Type`
field. -/
structure MountInfo where
  mountType : List Char
  Source : List Char
  Destination : List Char
  Mode : List Char
deriving DecidableEq

/-- One host binding of a published port. -/
structure PortBindingInfo where
  HostIp : List Char
  HostPort : List Char
deriving DecidableEq

/-- `NetworkSettings` of an inspect result: `Ports` lists the entries of the
ports object (container port ↦ bindings or null), `Networks` the entries of
the networks object (name ↦ IP address). -/
structure NetworkSettingsInfo where
  IPAddress : List Char
  Gateway : List Char
  Ports : List (List Char × Option (List PortBindingInfo))
  Networks : List (List Char × List Char)
deriving DecidableEq

/-- `Config` of an inspect result. -/
structure ConfigInfo where
  Image : List Char
  Env : List (List Char)
  Cmd : Option (List (List Char))
  Entrypoint : Option (List (List Char))
  WorkingDir : List Char
  User : List Char
deriving DecidableEq

/-- The container inspect record (`container.inspect()`), restricted to the
fields this repository reads. -/
structure InspectInfo where
  Id : List Char
  Name : List Char
  Created : List Char
  Config : ConfigInfo
  State : ContainerStateInfo
  HostConfig : HostConfigInfo
  NetworkSettings : NetworkSettingsInfo
  Mounts : List MountInfo
deriving DecidableEq

/-- The stdout/stderr/exit-code triple `executeDockerCommand` resolves
with (`exitCode` is `null` when Docker reports none). -/
structure ExecResult where
  stdout : List Char
  stderr : List Char
  exitCode : Option Int
deriving DecidableEq

/-- The in-container filesystem, as an association list from paths to file
contents. -/
abbrev ContainerFS := List (List Char × List Char)

/-- Look a path up in the container filesystem. -/
def lookupFS : ContainerFS → List Char → Option (List Char)
  | [], _ => none
  | (p, c) :: rest, q => if p = q then some c else lookupFS rest q

/-- Write a file, replacing any existing entry for the path. -/
def insertFS : ContainerFS → List Char → List Char → ContainerFS
  | [], p, c => [(p, c)]
  | (p0, c0) :: rest, p, c =>
    if p0 = p then (p0, c) :: rest else (p0, c0) :: insertFS rest p c

/-- The parameters passed to `container.exec`: derived from the exec tool's
arguments (`AttachStdin: !!stdin`, `Cmd: ['/bin/bash','-c', command]`). -/
structure ExecSpec where
  container : List Char
  command : List Char
  stdinAttached : Bool
  workingDir : Option (List Char)
  user : Option (List Char)
  env : Option (List (List Char))
deriving DecidableEq

/-- The external environment of the servers: the Docker daemon, the host
filesystem, the request-scoped timer race, and the code-editing server's
target container with its filesystem. All fields are oracles the theorems
quantify over. -/
structure World where
  inspect : List Char → Except JSException InspectInfo
  listContainersApi : Bool → Except JSException (List ContainerSummary)
  runExec : ExecSpec → Except JSException (List Nat × Option Int)
  timerWins : Bool
  hostRead : List Char → Except JSException (List Char)
  cwd : List Char
  target : List Char
  fs : ContainerFS
  execErr : List Char → Option JSException
  fallback : List Char → ExecResult

/-- Docker API calls performed by the exec tool's `executeDockerCommand`. -/
inductive DockerAction where
  | inspectC : List Char → DockerAction
  | execRun : ExecSpec → DockerAction
deriving DecidableEq

/-- The command `read_file`/`write_file`/`search_replace`/`delete_file` use
to test for a file: `test -f <escaped> && echo "exists" || echo "not
found"`. -/
def testFileCmd (path : List Char) : List Char :=
  str ("test -f ") ++ escapeShellArg path ++ str (" && echo \"exists\" || echo \"not found\"")

/-- The directory test of `list_dir`: `test -d ... "exists" / "not found"`. -/
def testDirCmd (path : List Char) : List Char :=
  str ("test -d ") ++ escapeShellArg path ++ str (" && echo \"exists\" || echo \"not found\"")

/-- The directory/file discrimination of `delete_file`. -/
def testDirTypeCmd (path : List Char) : List Char :=
  str ("test -d ") ++ escapeShellArg path ++ str (" && echo \"directory\" || echo \"file\"")

/-- `cat <escaped path>`. -/
def catFileCmd (path : List Char) : List Char :=
  str ("cat ") ++ escapeShellArg path

/-- The heredoc delimiter used by `write_file` and `search_replace`. -/
def heredocMarker : List Char := str ("EOF_MARKER_UNIQUE")

/-- The heredoc write command `cat > <escaped path> << 'EOF_MARKER_UNIQUE'
<contents> EOF_MARKER_UNIQUE` built by `write_file` and `search_replace`. -/
def writeFileCmd (path contents : List Char) : List Char :=
  str ("cat > ") ++ escapeShellArg path ++ str (" << ") ++ [squote] ++ heredocMarker
    ++ [squote] ++ [nlChar] ++ contents ++ [nlChar] ++ heredocMarker

/-- `true` iff a command would overwrite a file (the heredoc redirection the
tools use for writing). -/
def isWriteCmd (cmd : List Char) : Bool :=
  List.isPrefixOf (str ("cat > ")) cmd

/-- Join lines with newlines (inverse of `splitLines`). -/
def joinLines (ls : List (List Char)) : List Char := joinSep [nlChar] ls

/-- The file written by a heredoc body: all lines before the first delimiter
line, each terminated by a newline. -/
def heredocContent (body : List Char) : List Char :=
  match (splitLines body).takeWhile (fun l => !(l == heredocMarker)) with
  | [] => []
  | l :: ls => joinLines (l :: ls) ++ [nlChar]


/-- The heredoc introducer between the escaped path and the body in the
write command: space, `<<`, space, quoted delimiter, newline. -/
def heredocIntro : List Char :=
  str (" << ") ++ [squote] ++ heredocMarker ++ [squote] ++ [nlChar]

/-- Recognise a `test -f <escaped> && echo "exists" || echo "not found"`
command and return the unescaped path. -/
def parseTestFileCmd (cmd : List Char) : Option (List Char) :=
  if List.isPrefixOf (str ("test -f ")) cmd then
    match readWord false (cmd.drop 8) with
    | some (w, rest) =>
      if rest = str (" && echo \"exists\" || echo \"not found\"") then some w else none
    | none => none
  else none

/-- Recognise a heredoc write `cat > <escaped> << 'EOF_MARKER_UNIQUE' ...`
command and return the unescaped path and the heredoc text. -/
def parseWriteCmd (cmd : List Char) : Option (List Char × List Char) :=
  if List.isPrefixOf (str ("cat > ")) cmd then
    match readWord false (cmd.drop 6) with
    | some (w, rest) =>
      if List.isPrefixOf heredocIntro rest then some (w, rest.drop 24) else none
    | none => none
  else none

/-- Recognise a plain `cat <escaped>` command (not a redirection) and return
the unescaped path. -/
def parseCatCmd (cmd : List Char) : Option (List Char) :=
  if List.isPrefixOf (str ("cat > ")) cmd then none
  else if List.isPrefixOf (str ("cat ")) cmd then
    match readWord false (cmd.drop 4) with
    | some (w, rest) => if rest = [] then some w else none
    | none => none
  else none

/-- Modelled from the spec: the in-container POSIX shell, restricted to the
three command shapes whose effect the file-editing tools depend on (file
test, cat, heredoc write); the shell itself is external to the repository.
`none` delegates unmodelled commands to the world's fallback oracle. -/
def interpShell (fs : ContainerFS) (cmd : List Char) : Option (ExecResult × ContainerFS) :=
  match parseTestFileCmd cmd with
  | some w =>
    some (⟨(if (lookupFS fs w).isSome then str ("exists") else str ("not found")) ++ [nlChar],
           [], some 0⟩, fs)
  | none =>
    match parseWriteCmd cmd with
    | some (w, body) => some (⟨[], [], some 0⟩, insertFS fs w (heredocContent body))
    | none =>
      match parseCatCmd cmd with
      | some w =>
        some ((match lookupFS fs w with
               | some c => ⟨c, [], some 0⟩
               | none => ⟨[], str ("cat: ") ++ w
                   ++ str (": No such file or directory") ++ [nlChar], some 1⟩), fs)
      | none => none

/-- `executeDockerCommand` from src/unnamed/part_002 lines 17-123: inspect
the container, refuse when it is not running, otherwise create and start the
exec instance, demultiplex the collected stream with `parseDockerStream`,
and resolve with stdout/stderr/exit code. Besides the result it reports the
Docker API actions that were performed. -/
def executeDockerCommand (w : World) (containerId command : List Char)
    (stdin : Option (List Char)) (workingDir : Option (List Char))
    (user : Option (List Char)) (env : Option (List (List Char))) :
    Except JSException ExecResult × List DockerAction :=
  match w.inspect containerId with
  | Except.error e => (Except.error e, [DockerAction.inspectC containerId])
  | Except.ok info =>
    if info.State.Running = false then
      (Except.error (JSException.errObj (str ("Container ") ++ [squote] ++ containerId
          ++ [squote] ++ str (" is not running"))),
       [DockerAction.inspectC containerId])
    else
      match w.runExec ⟨containerId, command, stdin.isSome, workingDir, user, env⟩ with
      | Except.error e =>
        (Except.error e,
         [DockerAction.inspectC containerId,
          DockerAction.execRun ⟨containerId, command, stdin.isSome, workingDir, user, env⟩])
      | Except.ok (bytes, exit) =>
        (Except.ok ⟨(parseDockerStream bytes).1, (parseDockerStream bytes).2, exit⟩,
         [DockerAction.inspectC containerId,
          DockerAction.execRun ⟨containerId, command, stdin.isSome, workingDir, user, env⟩])

/-- The `executeDockerCommand` closure of the code-editing server
(src/tools.md lines 464-568): the same procedure against the fixed target
container, with the stream-level round trip through Docker's multiplexing
abstracted away — the in-container shell (`interpShell`, falling back to
the world's command oracle) directly supplies the demultiplexed result.
Returns the result, the updated world, and the commands issued in the
container. -/
def executeDockerCommandCE (w : World) (command : List Char)
    (stdin : Option (List Char)) (workingDir : Option (List Char))
    (user : Option (List Char)) (env : Option (List (List Char))) :
    Except JSException ExecResult × World × List (List Char) :=
  match w.inspect w.target with
  | Except.error e => (Except.error e, w, [])
  | Except.ok info =>
    if info.State.Running = false then
      (Except.error (JSException.errObj (str ("Container ") ++ [squote] ++ w.target
          ++ [squote] ++ str (" is not running"))), w, [])
    else
      match w.execErr command with
      | some e => (Except.error e, w, [command])
      | none =>
        match interpShell w.fs command with
        | some (r, fs2) => (Except.ok r, {w with fs := fs2}, [command])
        | none => (Except.ok (w.fallback command), w, [command])

/-- Shorthand for the code-editing helpers' bare `executeDockerCommand(cmd)`
calls. -/
def ceExec (w : World) (cmd : List Char) : Except JSException ExecResult × World × List (List Char) :=
  executeDockerCommandCE w cmd none none none none

/-- The result/world/trace record a fully-evaluated handler body produces
(`cmds` lists the commands issued inside the container). -/
structure HandlerOut where
  result : Except JSException CallToolResult
  world : World
  cmds : List (List Char)

/-- The `try { body } catch { text }` boundary every handler ends with:
a rejection becomes a normal text result built from `prefixMsg` and the
error's message (or `fallbackMsg` for non-`Error` values). -/
def catchToText (prefixMsg fallbackMsg : List Char)
    (x : Except JSException CallToolResult) : Except JSException CallToolResult :=
  match x with
  | Except.ok r => Except.ok r
  | Except.error e => Except.ok (textResult (prefixMsg ++ messageOr fallbackMsg e))

/-- The exec tool's output formatting: optional STDOUT and STDERR sections
followed by the exit code. -/
def formatExecOutput (r : ExecResult) : List Char :=
  (if r.stdout = [] then [] else str ("STDOUT:") ++ [nlChar] ++ r.stdout ++ [nlChar])
    ++ (if r.stderr = [] then [] else str ("STDERR:") ++ [nlChar] ++ r.stderr ++ [nlChar])
    ++ str ("Exit Code: ") ++ exitCodeStr r.exitCode

/-- Parameters of the `exec` tool (src/unnamed/part_002), after zod applied
the defaults (`working_dir` '/home/ubuntu/workspace', `timeout` 30). -/
structure ExecParams where
  container_id : List Char
  command : List Char
  stdin : Option (List Char)
  working_dir : List Char
  user : Option (List Char)
  env : Option (List (List Char))
  timeout : Int

/-- The `exec` tool parameters as received, before zod defaulting. -/
structure ExecRawParams where
  container_id : List Char
  command : List Char
  stdin : Option (List Char)
  working_dir : Option (List Char)
  user : Option (List Char)
  env : Option (List (List Char))
  timeout : Option Int

/-- The zod `.default(...)` clauses of the exec tool's input schema. -/
def applyExecDefaults (p : ExecRawParams) : ExecParams :=
  ⟨p.container_id, p.command, p.stdin,
   p.working_dir.getD (str ("/home/ubuntu/workspace")), p.user, p.env,
   p.timeout.getD 30⟩

/-- The `exec` tool handler (src/unnamed/part_002 lines 125-160): race
`executeDockerCommand` against the timeout timer (`timerWins` abstracts
which promise settles first), format a completion, and catch any rejection
as an "Execution error" text. The Docker actions of the command are
reported alongside. -/
def execHandlerFull (w : World) (p : ExecParams) :
    Except JSException CallToolResult × List DockerAction :=
  ((match (if w.timerWins then Except.error (JSException.errObj (str ("Command timeout")))
           else (executeDockerCommand w p.container_id p.command p.stdin
                  (some p.working_dir) p.user p.env).1) with
    | Except.ok r => Except.ok (textResult (formatExecOutput r))
    | Except.error e =>
      Except.ok (textResult (str ("Execution error: ") ++ messageOr (str ("Unknown error")) e))),
   (executeDockerCommand w p.container_id p.command p.stdin
      (some p.working_dir) p.user p.env).2)

/-- `n.replace(/^\//, '')`: strip one leading slash. -/
def stripSlash (n : List Char) : List Char :=
  match n with
  | [] => []
  | c :: r => if c = slashChar then r else n

/-- Port rendering of `list_containers`: `IP:Public->Private/Type` for a
published (truthy) public port, `Private/Type` otherwise. -/
def formatPort (p : PortInfo) : List Char :=
  match p.PublicPort with
  | some pp =>
    if pp ≠ 0 then
      (if p.IP = [] then str ("0.0.0.0") else p.IP) ++ str (":") ++ natToChars pp
        ++ str ("->") ++ natToChars p.PrivatePort ++ [slashChar] ++ p.proto
    else natToChars p.PrivatePort ++ [slashChar] ++ p.proto
  | none => natToChars p.PrivatePort ++ [slashChar] ++ p.proto

/-- One block of `list_containers` output. -/
def formatContainerBlock (c : ContainerSummary) : List Char :=
  str ("Name:    ") ++ joinSep (str (", ")) (c.Names.map stripSlash) ++ [nlChar]
    ++ str ("ID:      ") ++ c.Id.take 12 ++ [nlChar]
    ++ str ("Image:   ") ++ c.Image ++ [nlChar]
    ++ str ("State:   ") ++ c.State ++ [nlChar]
    ++ str ("Status:  ") ++ c.Status ++ [nlChar]
    ++ str ("Ports:   ")
    ++ (if joinSep (str (", ")) (c.Ports.map formatPort) = [] then str ("none")
        else joinSep (str (", ")) (c.Ports.map formatPort)) ++ [nlChar]
    ++ List.replicate 80 (Char.ofNat 45) ++ [nlChar] ++ [nlChar]

/-- Parameters of `list_containers` after the zod default (`all` false). -/
structure ListContainersParams where
  all : Bool

/-- Body of the `list_containers` handler
(src/src/tools/list-containers.ts lines 9-64), before the catch. -/
def listContainersBody (w : World) (p : ListContainersParams) :
    Except JSException CallToolResult :=
  match w.listContainersApi p.all with
  | Except.error e => Except.error e
  | Except.ok cs =>
    if cs.length = 0 then
      Except.ok (textResult (if p.all then str ("No containers found.")
        else str ("No running containers found. Use all=true to see all containers.")))
    else
      Except.ok (textResult (jsTrim
        ((if p.all then str ("All") else str ("Running")) ++ str (" Containers:") ++ [nlChar]
          ++ List.replicate 80 (Char.ofNat 61) ++ [nlChar] ++ [nlChar]
          ++ concatMap formatContainerBlock cs)))

/-- The `list_containers` handler with its catch boundary. -/
def listContainersHandler (w : World) (p : ListContainersParams) :
    Except JSException CallToolResult :=
  catchToText (str ("Error listing containers: ")) (str ("Unknown error"))
    (listContainersBody w p)

/-- `toFixed(0)` of `m / 1024 / 1024` as JavaScript renders a memory limit
in megabytes (rounding half away from zero; exact for the IEEE values the
Docker API produces in practice). -/
def memMBStr (m : Int) : List Char :=
  if m < 0 then Char.ofNat 45 :: natToChars ((2 * m.natAbs + 1048576) / 2097152)
  else natToChars ((2 * m.natAbs + 1048576) / 2097152)

/-- `NanoCpus / 1000000000` as JavaScript prints the quotient (an exact
decimal with at most nine fractional digits, trailing zeros omitted). -/
def nanoCoresStr (n : Int) : List Char :=
  (if n < 0 then [Char.ofNat 45] else [])
    ++ natToChars (n.natAbs / 1000000000)
    ++ (if n.natAbs % 1000000000 = 0 then []
        else Char.ofNat 46 ::
          (padStart 9 (Char.ofNat 48) (natToChars (n.natAbs % 1000000000))).reverse.dropWhile
            (fun c => c == Char.ofNat 48) |>.reverse)

/-- The `get_container_info` output formatter (src/tools.md lines 281-376),
transcribed line by line; JavaScript truthiness of strings and numbers is
modelled as nonemptiness and nonzeroness. -/
def formatContainerInfo (info : InspectInfo) : List Char :=
  str ("Container Information: ") ++ stripSlash info.Name ++ [nlChar]
    ++ List.replicate 80 (Char.ofNat 61) ++ [nlChar] ++ [nlChar]
    ++ str ("ID:      ") ++ info.Id ++ [nlChar]
    ++ str ("Name:    ") ++ stripSlash info.Name ++ [nlChar]
    ++ str ("Image:   ") ++ info.Config.Image ++ [nlChar]
    ++ str ("Created: ") ++ info.Created ++ [nlChar] ++ [nlChar]
    ++ str ("State:") ++ [nlChar]
    ++ str ("  Status:     ") ++ info.State.Status ++ [nlChar]
    ++ str ("  Running:    ") ++ boolStr info.State.Running ++ [nlChar]
    ++ str ("  Paused:     ") ++ boolStr info.State.Paused ++ [nlChar]
    ++ str ("  Restarting: ") ++ boolStr info.State.Restarting ++ [nlChar]
    ++ str ("  Pid:        ") ++ intToChars info.State.Pid ++ [nlChar]
    ++ str ("  Exit Code:  ") ++ intToChars info.State.ExitCode ++ [nlChar]
    ++ (if info.State.StartedAt = [] then []
        else str ("  Started:    ") ++ info.State.StartedAt ++ [nlChar])
    ++ (if info.State.FinishedAt ≠ [] ∧ info.State.FinishedAt ≠ str ("0001-01-01T00:00:00Z")
        then str ("  Finished:   ") ++ info.State.FinishedAt ++ [nlChar] else [])
    ++ [nlChar]
    ++ str ("Network:") ++ [nlChar]
    ++ str ("  IP Address: ")
    ++ (if info.NetworkSettings.IPAddress = [] then str ("none")
        else info.NetworkSettings.IPAddress) ++ [nlChar]
    ++ str ("  Gateway:    ")
    ++ (if info.NetworkSettings.Gateway = [] then str ("none")
        else info.NetworkSettings.Gateway) ++ [nlChar]
    ++ (if info.NetworkSettings.Ports = [] then []
        else str ("  Ports:") ++ [nlChar]
          ++ concatMap (fun pe =>
              match pe.2 with
              | some bindings =>
                concatMap (fun b => str ("    ") ++ b.HostIp ++ str (":") ++ b.HostPort
                  ++ str (" -> ") ++ pe.1 ++ [nlChar]) bindings
              | none => str ("    ") ++ pe.1 ++ str (" (not published)") ++ [nlChar])
            info.NetworkSettings.Ports)
    ++ (if info.NetworkSettings.Networks = [] then []
        else str ("  Networks:") ++ [nlChar]
          ++ concatMap (fun ne => str ("    ") ++ ne.1 ++ str (": ")
              ++ (if ne.2 = [] then str ("no IP") else ne.2) ++ [nlChar])
            info.NetworkSettings.Networks)
    ++ [nlChar]
    ++ (if info.Mounts = [] then []
        else str ("Mounts:") ++ [nlChar]
          ++ concatMap (fun m => str ("  ") ++ m.mountType ++ str (": ") ++ m.Source
              ++ str (" -> ") ++ m.Destination ++ [nlChar]
              ++ (if m.Mode = [] then [] else str ("    Mode: ") ++ m.Mode ++ [nlChar]))
            info.Mounts
          ++ [nlChar])
    ++ (if info.Config.Env = [] then []
        else str ("Environment:") ++ [nlChar]
          ++ concatMap (fun e => str ("  ") ++ e ++ [nlChar]) info.Config.Env ++ [nlChar])
    ++ (match info.Config.Cmd with
        | some l => if l = [] then [] else str ("Command: ") ++ joinSep [spaceChar] l ++ [nlChar]
        | none => [])
    ++ (match info.Config.Entrypoint with
        | some l => if l = [] then []
            else str ("Entrypoint: ") ++ joinSep [spaceChar] l ++ [nlChar]
        | none => [])
    ++ (if info.Config.WorkingDir = [] then []
        else str ("Working Dir: ") ++ info.Config.WorkingDir ++ [nlChar])
    ++ [nlChar]
    ++ str ("Resources:") ++ [nlChar]
    ++ (if info.HostConfig.Memory ≠ 0 then
          str ("  Memory: ") ++ memMBStr info.HostConfig.Memory ++ str (" MB") ++ [nlChar]
        else [])
    ++ (if info.HostConfig.CpuShares ≠ 0 then
          str ("  CPU Shares: ") ++ intToChars info.HostConfig.CpuShares ++ [nlChar]
        else [])
    ++ (if info.HostConfig.NanoCpus ≠ 0 then
          str ("  CPU Limit: ") ++ nanoCoresStr info.HostConfig.NanoCpus
            ++ str (" cores") ++ [nlChar]
        else [])
    ++ [nlChar] ++ str ("Restart Policy: ")
    ++ (match info.HostConfig.RestartPolicy with
        | some rp => if rp.Name = [] then str ("no") else rp.Name
        | none => str ("no"))
    ++ (match info.HostConfig.RestartPolicy with
        | some rp =>
          if rp.MaximumRetryCount ≠ 0 then
            str (" (max: ") ++ intToChars rp.MaximumRetryCount ++ str (")")
          else []
        | none => [])

/-- Parameters of `get_container_info`. -/
structure ContainerInfoParams where
  container_id : List Char

/-- Body of the `get_container_info` handler (src/tools.md lines 273-393). -/
def getContainerInfoBody (w : World) (p : ContainerInfoParams) :
    Except JSException CallToolResult :=
  match w.inspect p.container_id with
  | Except.error e => Except.error e
  | Except.ok info => Except.ok (textResult (formatContainerInfo info))

/-- The `get_container_info` handler with its catch boundary. -/
def getContainerInfoHandler (w : World) (p : ContainerInfoParams) :
    Except JSException CallToolResult :=
  catchToText (str ("Error getting container info: ")) (str ("Unknown error"))
    (getContainerInfoBody w p)

/-- `path.resolve(process.cwd(), p)` restricted to the joining behaviour the
compose tools rely on (no `.`/`..` normalisation is modelled). -/
def resolvePath (cwd p : List Char) : List Char :=
  if List.isPrefixOf [slashChar] p then p else cwd ++ [slashChar] ++ p

/-- The candidate compose-file paths, in probe order. -/
def possiblePaths (composeFile : List Char) : List (List Char) :=
  [composeFile, str ("docker/compose.yaml"), str ("docker/compose.yml"),
   str ("docker-compose.yaml"), str ("docker-compose.yml"),
   str ("compose.yaml"), str ("compose.yml")]

/-- The probe loop of the compose tools: try each path on the host
filesystem, keep the first successful read (per-path read errors are caught
and skipped). -/
def firstRead (w : World) : List (List Char) → Option (List Char × List Char)
  | [] => none
  | p :: rest =>
    match w.hostRead (resolvePath w.cwd p) with
    | Except.ok c => some (p, c)
    | Except.error _ => firstRead w rest

/-- Parameters of `get_compose_file` after the zod default. -/
structure ComposeParams where
  compose_file : List Char

/-- The "not found" text of the standalone `get_compose_file` tool
(src/unnamed/part_000 lines 44-56). -/
def composeNotFoundText (w : World) (p : ComposeParams) : List Char :=
  jsTrim ([nlChar]
    ++ str ("Docker Compose file not found on host filesystem.") ++ [nlChar] ++ [nlChar]
    ++ str ("Searched for compose file in:") ++ [nlChar]
    ++ joinSep [nlChar] ((possiblePaths p.compose_file).map
        (fun q => str ("- ") ++ resolvePath w.cwd q))
    ++ [nlChar] ++ [nlChar]
    ++ str ("💡 To view the compose file:") ++ [nlChar]
    ++ str ("1. Make sure it exists in one of the searched locations") ++ [nlChar]
    ++ str ("2. Specify the correct path with the compose_file parameter") ++ [nlChar]
    ++ str ("3. Use an absolute path if the file is elsewhere") ++ [nlChar] ++ [nlChar]
    ++ str ("MCP Server working directory: ") ++ w.cwd
    ++ [nlChar] ++ str ("      "))

/-- The "found" text of the standalone `get_compose_file` tool
(src/unnamed/part_000 lines 66-74). -/
def composeFoundText (w : World) (foundPath content : List Char) : List Char :=
  jsTrim ([nlChar]
    ++ str ("Docker Compose Configuration (") ++ foundPath ++ str ("):") ++ [nlChar]
    ++ List.replicate 60 (Char.ofNat 61) ++ [nlChar] ++ [nlChar]
    ++ content ++ [nlChar] ++ [nlChar]
    ++ List.replicate 60 (Char.ofNat 61) ++ [nlChar]
    ++ str ("File Location: ") ++ resolvePath w.cwd foundPath
    ++ [nlChar] ++ str ("    "))

/-- Body of the standalone `get_compose_file` handler (src/unnamed/part_000
lines 11-91): probe the host paths and render the first hit; an empty (or
missing) content falls back to the help text. -/
def getComposeFileBody (w : World) (p : ComposeParams) : Except JSException CallToolResult :=
  match firstRead w (possiblePaths p.compose_file) with
  | some (fp, content) =>
    if content = [] then Except.ok (textResult (composeNotFoundText w p))
    else Except.ok (textResult (composeFoundText w fp content))
  | none => Except.ok (textResult (composeNotFoundText w p))

/-- The standalone `get_compose_file` handler with its catch boundary. -/
def getComposeFileHandler (w : World) (p : ComposeParams) : Except JSException CallToolResult :=
  catchToText (str ("Error getting compose file: ")) (str ("Unknown error"))
    (getComposeFileBody w p)

/-- The "not found" text of the code-editing server's `get_compose_file`
(src/tools.md lines 665-687), which also inspects the target container. -/
def ceComposeNotFoundText (w : World) (p : ComposeParams) (info : InspectInfo) : List Char :=
  jsTrim ([nlChar]
    ++ str ("Docker Compose file not found on host filesystem.") ++ [nlChar] ++ [nlChar]
    ++ str ("Container Information:") ++ [nlChar]
    ++ str ("Target Container: ") ++ w.target ++ [nlChar]
    ++ str ("Name: ") ++ info.Name ++ [nlChar]
    ++ str ("ID: ") ++ info.Id.take 12 ++ [nlChar]
    ++ str ("Image: ") ++ info.Config.Image ++ [nlChar]
    ++ str ("State: ") ++ info.State.Status ++ [nlChar]
    ++ str ("Started: ") ++ info.State.StartedAt ++ [nlChar]
    ++ str ("Working Dir: ")
    ++ (if info.Config.WorkingDir = [] then [slashChar] else info.Config.WorkingDir) ++ [nlChar]
    ++ str ("User: ")
    ++ (if info.Config.User = [] then str ("root") else info.Config.User) ++ [nlChar] ++ [nlChar]
    ++ str ("Searched for compose file in:") ++ [nlChar]
    ++ joinSep [nlChar] ((possiblePaths p.compose_file).map
        (fun q => str ("- ") ++ resolvePath w.cwd q))
    ++ [nlChar] ++ [nlChar]
    ++ str ("💡 To view the compose file:") ++ [nlChar]
    ++ str ("1. Make sure it exists in one of the searched locations") ++ [nlChar]
    ++ str ("2. Specify the correct path with the compose_file parameter") ++ [nlChar]
    ++ str ("3. Use an absolute path if the file is elsewhere") ++ [nlChar] ++ [nlChar]
    ++ str ("MCP Server working directory: ") ++ w.cwd
    ++ [nlChar] ++ str ("          "))

/-- The "found" text of the code-editing server's `get_compose_file`
(src/tools.md lines 697-706). -/
def ceComposeFoundText (w : World) (foundPath content : List Char) : List Char :=
  jsTrim ([nlChar]
    ++ str ("Docker Compose Configuration (") ++ foundPath ++ str ("):") ++ [nlChar]
    ++ List.replicate 60 (Char.ofNat 61) ++ [nlChar] ++ [nlChar]
    ++ content ++ [nlChar] ++ [nlChar]
    ++ List.replicate 60 (Char.ofNat 61) ++ [nlChar]
    ++ str ("Target Container: ") ++ w.target ++ [nlChar]
    ++ str ("File Location: ") ++ resolvePath w.cwd foundPath
    ++ [nlChar] ++ str ("        "))

/-- Body of the code-editing server's `get_compose_file` (src/tools.md
lines 625-724). -/
def ceGetComposeFileBody (w : World) (p : ComposeParams) : HandlerOut :=
  match firstRead w (possiblePaths p.compose_file) with
  | some (fp, content) =>
    if content = [] then
      match w.inspect w.target with
      | Except.error e => ⟨Except.error e, w, []⟩
      | Except.ok info => ⟨Except.ok (textResult (ceComposeNotFoundText w p info)), w, []⟩
    else ⟨Except.ok (textResult (ceComposeFoundText w fp content)), w, []⟩
  | none =>
    match w.inspect w.target with
    | Except.error e => ⟨Except.error e, w, []⟩
    | Except.ok info => ⟨Except.ok (textResult (ceComposeNotFoundText w p info)), w, []⟩

/-- Parameters of the code-editing server's `exec` tool (src/tools.md lines
582-587) after the zod default (`timeout` 30; no working-directory
default on this server). -/
structure CeExecParams where
  command : List Char
  stdin : Option (List Char)
  working_dir : Option (List Char)
  user : Option (List Char)
  env : Option (List (List Char))
  timeout : Int

/-- The code-editing server's `exec` handler (src/tools.md lines 589-621):
the same race/format/catch structure as the container server's exec tool,
against the fixed target container. -/
def ceExecBody (w : World) (p : CeExecParams) : HandlerOut :=
  match executeDockerCommandCE w p.command p.stdin p.working_dir p.user p.env with
  | (res, w1, c1) =>
    match (if w.timerWins then Except.error (JSException.errObj (str ("Command timeout")))
           else res) with
    | Except.ok r => ⟨Except.ok (textResult (formatExecOutput r)), w1, c1⟩
    | Except.error e =>
      ⟨Except.ok (textResult (str ("Execution error: ")
          ++ messageOr (str ("Unknown error")) e)), w1, c1⟩

/-- Parameters of `read_file`. -/
structure ReadFileParams where
  target_file : List Char
  offset : Option Int
  limit : Option Int

/-- Line numbering of `read_file`: each selected line is prefixed with its
1-based number padded to width 6 and a `|`. -/
def numberLines (startLine : Int) (selected : List (List Char)) : List (List Char) :=
  selected.mapIdx (fun i line =>
    padStart 6 spaceChar (intToChars (startLine + i)) ++ [Char.ofNat 124] ++ line)

/-- Body of `read_file` (src/tools.md lines 737-804): check existence, cat
the file, then slice and number the requested line range. -/
def readFileBody (w : World) (p : ReadFileParams) : HandlerOut :=
  match ceExec w (testFileCmd p.target_file) with
  | (Except.error e, w1, c1) => ⟨Except.error e, w1, c1⟩
  | (Except.ok check, w1, c1) =>
    if ¬ (jsTrim check.stdout = str ("exists")) then
      ⟨Except.ok (textResult (str ("Error: File not found: ") ++ p.target_file)), w1, c1⟩
    else
      match ceExec w1 (catFileCmd p.target_file) with
      | (Except.error e, w2, c2) => ⟨Except.error e, w2, c1 ++ c2⟩
      | (Except.ok catR, w2, c2) =>
        if ¬ (catR.exitCode = some 0) then
          ⟨Except.ok (textResult (str ("Error reading file: ") ++ catR.stderr)), w2, c1 ++ c2⟩
        else if catR.stdout.length = 0 then
          ⟨Except.ok (textResult (str ("File is empty."))), w2, c1 ++ c2⟩
        else
          ⟨Except.ok (textResult (joinSep [nlChar]
            (numberLines
              (match p.offset with | none => 1 | some o => max 1 o)
              (jsSlice (splitLines catR.stdout)
                ((match p.offset with | none => 1 | some o => max 1 o) - 1)
                (match p.limit with
                 | none => ((splitLines catR.stdout).length : Int)
                 | some l => min ((splitLines catR.stdout).length : Int)
                     ((match p.offset with | none => 1 | some o => max 1 o) + l - 1)))))),
           w2, c1 ++ c2⟩

/-- Parameters of `write_file`. -/
structure WriteFileParams where
  file_path : List Char
  contents : List Char

/-- `path.dirname` (POSIX): strip trailing slashes and the last path
component; `/` for the root, `.` when no directory remains. -/
def jsDirname (p : List Char) : List Char :=
  if (((p.reverse.dropWhile (fun c => c == slashChar)).dropWhile
        (fun c => !(c == slashChar))).dropWhile (fun c => c == slashChar)) = [] then
    (if List.isPrefixOf [slashChar] p then [slashChar] else [Char.ofNat 46])
  else
    (((p.reverse.dropWhile (fun c => c == slashChar)).dropWhile
        (fun c => !(c == slashChar))).dropWhile (fun c => c == slashChar)).reverse

/-- Body of `write_file` (src/tools.md lines 816-857): create the parent
directory when needed, record whether the file existed, then write it with
the heredoc command. -/
def writeFileBody (w : World) (p : WriteFileParams) : HandlerOut :=
  match
    (if ¬ (jsDirname p.file_path = [Char.ofNat 46]) ∧ ¬ (jsDirname p.file_path = [slashChar])
     then
       match ceExec w (str ("mkdir -p ") ++ escapeShellArg (jsDirname p.file_path)) with
       | (Except.error e, w0, c0) => (Except.error e, w0, c0)
       | (Except.ok _, w0, c0) => (Except.ok (), w0, c0)
     else (Except.ok (), w, [])) with
  | (Except.error e, w1, c1) => ⟨Except.error e, w1, c1⟩
  | (Except.ok _, w1, c1) =>
    match ceExec w1 (testFileCmd p.file_path) with
    | (Except.error e, w2, c2) => ⟨Except.error e, w2, c1 ++ c2⟩
    | (Except.ok check, w2, c2) =>
      match ceExec w2 (writeFileCmd p.file_path p.contents) with
      | (Except.error e, w3, c3) => ⟨Except.error e, w3, c1 ++ c2 ++ c3⟩
      | (Except.ok wr, w3, c3) =>
        if ¬ (wr.exitCode = some 0) then
          ⟨Except.ok (textResult (str ("Error writing file: ") ++ wr.stderr)),
           w3, c1 ++ c2 ++ c3⟩
        else
          ⟨Except.ok (textResult
            ((if jsTrim check.stdout = str ("exists") then str ("Overwritten")
              else str ("Created"))
              ++ str (" file: ") ++ p.file_path ++ str (" (")
              ++ natToChars p.contents.length ++ str (" characters)"))),
           w3, c1 ++ c2 ++ c3⟩

/-- Parameters of `search_replace` after the zod default (`replace_all`
false). -/
structure SearchReplaceParams where
  file_path : List Char
  old_string : List Char
  new_string : List Char
  replace_all : Bool

/-- Body of `search_replace` (src/tools.md lines 871-960): reject equal
arguments, check the file exists, cat it, enforce uniqueness for single
replacement, perform the JavaScript replacement and write the result back
with the heredoc command. -/
def searchReplaceBody (w : World) (p : SearchReplaceParams) : HandlerOut :=
  if p.old_string = p.new_string then
    ⟨Except.ok (textResult (str ("Error: old_string and new_string must be different"))), w, []⟩
  else
    match ceExec w (testFileCmd p.file_path) with
    | (Except.error e, w1, c1) => ⟨Except.error e, w1, c1⟩
    | (Except.ok check, w1, c1) =>
      if ¬ (jsTrim check.stdout = str ("exists")) then
        ⟨Except.ok (textResult (str ("Error: File not found: ") ++ p.file_path)), w1, c1⟩
      else
        match ceExec w1 (catFileCmd p.file_path) with
        | (Except.error e, w2, c2) => ⟨Except.error e, w2, c1 ++ c2⟩
        | (Except.ok catR, w2, c2) =>
          if ¬ (catR.exitCode = some 0) then
            ⟨Except.ok (textResult (str ("Error reading file: ") ++ catR.stderr)),
             w2, c1 ++ c2⟩
          else if p.replace_all = false ∧ jsSplitLen catR.stdout p.old_string - 1 > 1 then
            ⟨Except.ok (textResult (str ("Error: old_string \"") ++ p.old_string
              ++ str ("\" is not unique in the file. Use replace_all=true or provide more context to make it unique."))),
             w2, c1 ++ c2⟩
          else if jsIncludes catR.stdout p.old_string = false then
            ⟨Except.ok (textResult (str ("Error: old_string \"") ++ p.old_string
              ++ str ("\" not found in file"))), w2, c1 ++ c2⟩
          else
            match ceExec w2 (writeFileCmd p.file_path
                (if p.replace_all then jsReplaceAll catR.stdout p.old_string p.new_string
                 else jsReplaceOnce catR.stdout p.old_string p.new_string)) with
            | (Except.error e, w3, c3) => ⟨Except.error e, w3, c1 ++ c2 ++ c3⟩
            | (Except.ok wr, w3, c3) =>
              if ¬ (wr.exitCode = some 0) then
                ⟨Except.ok (textResult (str ("Error writing file: ") ++ wr.stderr)),
                 w3, c1 ++ c2 ++ c3⟩
              else
                ⟨Except.ok (textResult (str ("Successfully replaced ")
                  ++ natToChars (if p.replace_all then jsSplitLen catR.stdout p.old_string - 1
                      else 1)
                  ++ str (" occurrence(s) in ") ++ p.file_path)), w3, c1 ++ c2 ++ c3⟩

/-- Parameters of `list_dir` after the zod default (`show_hidden` false). -/
structure ListDirParams where
  target_directory : List Char
  show_hidden : Bool

/-- Body of `list_dir` (src/tools.md lines 972-1023). -/
def listDirBody (w : World) (p : ListDirParams) : HandlerOut :=
  match ceExec w (testDirCmd p.target_directory) with
  | (Except.error e, w1, c1) => ⟨Except.error e, w1, c1⟩
  | (Except.ok check, w1, c1) =>
    if ¬ (jsTrim check.stdout = str ("exists")) then
      ⟨Except.ok (textResult (str ("Error: Directory not found: ") ++ p.target_directory)),
       w1, c1⟩
    else
      match ceExec w1 ((if p.show_hidden then str ("ls -la ") else str ("ls -l "))
          ++ escapeShellArg p.target_directory) with
      | (Except.error e, w2, c2) => ⟨Except.error e, w2, c1 ++ c2⟩
      | (Except.ok r, w2, c2) =>
        if ¬ (r.exitCode = some 0) then
          ⟨Except.ok (textResult (str ("Error listing directory: ") ++ r.stderr)),
           w2, c1 ++ c2⟩
        else if jsTrim r.stdout = [] then
          ⟨Except.ok (textResult (str ("Directory is empty."))), w2, c1 ++ c2⟩
        else
          ⟨Except.ok (textResult (jsTrim r.stdout)), w2, c1 ++ c2⟩

/-- Parameters of `grep` (the handler's own destructuring defaults `path`
to "." and `case_insensitive` to false). -/
structure GrepParams where
  pattern : List Char
  path : Option (List Char)
  ftype : Option (List Char)
  case_insensitive : Bool
  context_before : Option Int
  context_after : Option Int
  context : Option Int
  head_limit : Option Int

/-- The grep command string built by the `grep` tool (src/tools.md lines
1052-1075); JavaScript truthiness makes an empty `type` and a zero
`head_limit` no-ops. -/
def grepCmd (p : GrepParams) : List Char :=
  str ("grep -r")
    ++ (if p.case_insensitive then str (" -i") else [])
    ++ str (" -n")
    ++ (match p.context with
        | some c => str (" -C ") ++ intToChars c
        | none =>
          (match p.context_before with
           | some b => str (" -B ") ++ intToChars b
           | none => [])
          ++ (match p.context_after with
              | some a => str (" -A ") ++ intToChars a
              | none => []))
    ++ (match p.ftype with
        | some t => if t = [] then [] else str (" --include=\"*.") ++ t ++ [dquoteChar]
        | none => [])
    ++ [spaceChar] ++ escapeShellArg p.pattern
    ++ [spaceChar] ++ escapeShellArg (p.path.getD (str (".")))
    ++ (match p.head_limit with
        | some hl => if hl = 0 then [] else str (" | head -") ++ intToChars hl
        | none => [])

/-- Body of `grep` (src/tools.md lines 1041-1104): exit code 1 with empty
stderr means no matches; other nonzero exits are rendered as errors. -/
def grepBody (w : World) (p : GrepParams) : HandlerOut :=
  match ceExec w (grepCmd p) with
  | (Except.error e, w1, c1) => ⟨Except.error e, w1, c1⟩
  | (Except.ok r, w1, c1) =>
    if r.exitCode = some 1 ∧ r.stderr = [] then
      ⟨Except.ok (textResult (str ("No matches found."))), w1, c1⟩
    else if ¬ (r.exitCode = some 0) ∧ ¬ (r.exitCode = some 1) then
      ⟨Except.ok (textResult (str ("Error: ")
        ++ (if r.stderr = [] then str ("Search failed") else r.stderr))), w1, c1⟩
    else if jsTrim r.stdout = [] then
      ⟨Except.ok (textResult (str ("No matches found."))), w1, c1⟩
    else
      ⟨Except.ok (textResult (jsTrim r.stdout)), w1, c1⟩

/-- The `type` enumeration of `find_files`. -/
inductive FindType where
  | f : FindType
  | d : FindType
  | l : FindType
deriving DecidableEq

/-- Template rendering of a `FindType`. -/
def findTypeStr : FindType → List Char
  | FindType.f => str ("f")
  | FindType.d => str ("d")
  | FindType.l => str ("l")

/-- Parameters of `find_files` after the zod defaults (`path` ".",
`type` files). -/
structure FindFilesParams where
  pattern : List Char
  path : List Char
  ftype : FindType

/-- Body of `find_files` (src/tools.md lines 1125-1154). -/
def findFilesBody (w : World) (p : FindFilesParams) : HandlerOut :=
  match ceExec w (str ("find ") ++ escapeShellArg p.path ++ str (" -type ")
      ++ findTypeStr p.ftype ++ str (" -name ") ++ escapeShellArg p.pattern) with
  | (Except.error e, w1, c1) => ⟨Except.error e, w1, c1⟩
  | (Except.ok r, w1, c1) =>
    if ¬ (r.exitCode = some 0) then
      ⟨Except.ok (textResult (str ("Error: ")
        ++ (if r.stderr = [] then str ("Find command failed") else r.stderr))), w1, c1⟩
    else if jsTrim r.stdout = [] then
      ⟨Except.ok (textResult (str ("No files found matching pattern: ") ++ p.pattern)),
       w1, c1⟩
    else
      ⟨Except.ok (textResult (jsTrim r.stdout)), w1, c1⟩

/-- Parameters of `delete_file`. -/
structure DeleteFileParams where
  target_file : List Char
  explanation : List Char

/-- Body of `delete_file` (src/tools.md lines 1174-1214). -/
def deleteFileBody (w : World) (p : DeleteFileParams) : HandlerOut :=
  match ceExec w (testFileCmd p.target_file) with
  | (Except.error e, w1, c1) => ⟨Except.error e, w1, c1⟩
  | (Except.ok check, w1, c1) =>
    if ¬ (jsTrim check.stdout = str ("exists")) then
      ⟨Except.ok (textResult (str ("File does not exist: ") ++ p.target_file)), w1, c1⟩
    else
      match ceExec w1 (testDirTypeCmd p.target_file) with
      | (Except.error e, w2, c2) => ⟨Except.error e, w2, c1 ++ c2⟩
      | (Except.ok tr, w2, c2) =>
        if jsTrim tr.stdout = str ("directory") then
          ⟨Except.ok (textResult (str ("Error: Cannot delete directory with delete_file tool: ")
            ++ p.target_file)), w2, c1 ++ c2⟩
        else
          match ceExec w2 (str ("rm ") ++ escapeShellArg p.target_file) with
          | (Except.error e, w3, c3) => ⟨Except.error e, w3, c1 ++ c2 ++ c3⟩
          | (Except.ok r, w3, c3) =>
            if ¬ (r.exitCode = some 0) then
              ⟨Except.ok (textResult (str ("Error deleting file: ") ++ r.stderr)),
               w3, c1 ++ c2 ++ c3⟩
            else
              ⟨Except.ok (textResult (str ("Successfully deleted file: ") ++ p.target_file
                ++ [nlChar] ++ str ("Reason: ") ++ p.explanation)), w3, c1 ++ c2 ++ c3⟩

/-- Parameters of `shell` after the zod default (`shell` '/bin/bash'). -/
structure ShellParams where
  shell : List Char
  user : Option (List Char)
  working_dir : Option (List Char)

/-- The instruction text of the `shell` tool (src/tools.md lines
1237-1258), already trimmed (the template has no other leading or trailing
whitespace). -/
def shellToolText (target : List Char) (p : ShellParams) : List Char :=
  joinSep [nlChar]
    [str ("To start an interactive shell in container ") ++ [squote] ++ target ++ [squote]
       ++ str (":"),
     [],
     str ("Direct Docker command:"),
     str ("docker exec -it ")
       ++ (match p.user with
           | some u => if u = [] then [] else str ("-u ") ++ u ++ [spaceChar]
           | none => [])
       ++ (match p.working_dir with
           | some wd => if wd = [] then [] else str ("-w ") ++ wd ++ [spaceChar]
           | none => [])
       ++ target ++ [spaceChar] ++ p.shell,
     [],
     str ("Or use the ") ++ [squote] ++ str ("exec") ++ [squote]
       ++ str (" tool with commands like:"),
     str ("- \"pwd\" to see current directory"),
     str ("- \"ls -la\" to list files"),
     str ("- \"whoami\" to see current user"),
     str ("- \"env\" to see environment variables"),
     [],
     str ("💡 This server provides full code editing capabilities inside the container:"),
     str ("- read_file: Read files from the container"),
     str ("- write_file: Create/edit files in the container"),
     str ("- search_replace: Find and replace text in container files"),
     str ("- list_dir: Browse directories in the container"),
     str ("- grep: Search for patterns in container files"),
     str ("- find_files: Find files by name pattern"),
     str ("- delete_file: Remove files from the container"),
     str ("- get_compose_file: View the Docker Compose configuration")]

/-- Body of the `shell` tool (src/tools.md lines 1235-1275): pure
formatting. -/
def shellBody (w : World) (p : ShellParams) : HandlerOut :=
  ⟨Except.ok (textResult (shellToolText w.target p)), w, []⟩

/-- One entry of a tool registry: the registered name, the parameter type,
and the handler as the protocol layer sees it (an `Except` that would carry
any escaped exception). -/
structure RegisteredTool where
  name : List Char
  Params : Type
  run : World → Params → Except JSException CallToolResult

/-- The registered `exec` tool of the container server. -/
def execTool : RegisteredTool :=
  ⟨str ("exec"), ExecParams, fun w p => (execHandlerFull w p).1⟩

/-- The registered `list_containers` tool. -/
def listContainersTool : RegisteredTool :=
  ⟨str ("list_containers"), ListContainersParams, listContainersHandler⟩

/-- The registered `get_container_info` tool. -/
def getContainerInfoTool : RegisteredTool :=
  ⟨str ("get_container_info"), ContainerInfoParams, getContainerInfoHandler⟩

/-- The registered standalone `get_compose_file` tool. -/
def getComposeFileTool : RegisteredTool :=
  ⟨str ("get_compose_file"), ComposeParams, getComposeFileHandler⟩

/-- The code-editing server's `exec` tool. -/
def ceExecTool : RegisteredTool :=
  ⟨str ("exec"), CeExecParams, fun w p => (ceExecBody w p).result⟩

/-- The code-editing server's `get_compose_file` tool. -/
def ceGetComposeTool : RegisteredTool :=
  ⟨str ("get_compose_file"), ComposeParams, fun w p =>
    catchToText (str ("Error getting compose file: ")) (str ("Unknown error"))
      (ceGetComposeFileBody w p).result⟩

/-- The registered `read_file` tool. -/
def readFileTool : RegisteredTool :=
  ⟨str ("read_file"), ReadFileParams, fun w p =>
    catchToText (str ("Error: ")) (str ("Unknown error occurred")) (readFileBody w p).result⟩

/-- The registered `write_file` tool. -/
def writeFileTool : RegisteredTool :=
  ⟨str ("write_file"), WriteFileParams, fun w p =>
    catchToText (str ("Error: ")) (str ("Unknown error occurred")) (writeFileBody w p).result⟩

/-- The registered `search_replace` tool. -/
def searchReplaceTool : RegisteredTool :=
  ⟨str ("search_replace"), SearchReplaceParams, fun w p =>
    catchToText (str ("Error: ")) (str ("Unknown error occurred"))
      (searchReplaceBody w p).result⟩

/-- The registered `list_dir` tool. -/
def listDirTool : RegisteredTool :=
  ⟨str ("list_dir"), ListDirParams, fun w p =>
    catchToText (str ("Error: ")) (str ("Unknown error occurred")) (listDirBody w p).result⟩

/-- The registered `grep` tool. -/
def grepTool : RegisteredTool :=
  ⟨str ("grep"), GrepParams, fun w p =>
    catchToText (str ("Error: ")) (str ("Search failed")) (grepBody w p).result⟩

/-- The registered `find_files` tool. -/
def findFilesTool : RegisteredTool :=
  ⟨str ("find_files"), FindFilesParams, fun w p =>
    catchToText (str ("Error: ")) (str ("File search failed")) (findFilesBody w p).result⟩

/-- The registered `delete_file` tool. -/
def deleteFileTool : RegisteredTool :=
  ⟨str ("delete_file"), DeleteFileParams, fun w p =>
    catchToText (str ("Error deleting file: ")) (str ("Unknown error occurred"))
      (deleteFileBody w p).result⟩

/-- The registered `shell` tool. -/
def shellTool : RegisteredTool :=
  ⟨str ("shell"), ShellParams, fun w p =>
    catchToText (str ("Error: ")) (str ("Unknown error")) (shellBody w p).result⟩

/-- `AVAILABLE_TOOLS` of the container server registry
(src/unnamed/part_004 lines 16-20). -/
def AVAILABLE_TOOLS : List RegisteredTool :=
  [execTool, listContainersTool, getContainerInfoTool]

/-- `AVAILABLE_TOOLS` of the compose-variant registry
(src/unnamed/part_004 lines 47-50). -/
def AVAILABLE_TOOLS_COMPOSE : List RegisteredTool :=
  [execTool, getComposeFileTool]

/-- The tools registered by the code-editing server's `getServer`
(src/tools.md lines 575-1276), in registration order. -/
def codeEditingTools : List RegisteredTool :=
  [ceExecTool, ceGetComposeTool, readFileTool, writeFileTool, searchReplaceTool,
   listDirTool, grepTool, findFilesTool, deleteFileTool, shellTool]

/-- Every handler registered anywhere in the repository. -/
def allRegisteredTools : List RegisteredTool :=
  AVAILABLE_TOOLS ++ AVAILABLE_TOOLS_COMPOSE ++ codeEditingTools

lemma isSingleTextOk_textResult (s : List Char) :
    isSingleTextOk (Except.ok (textResult s)) = true := rfl

lemma isSingleTextOk_catch (pre fb : List Char) (x : Except JSException CallToolResult)
    (h : ∀ r, x = Except.ok r → ∃ s, r = textResult s) :
    isSingleTextOk (catchToText pre fb x) = true := by
  cases x with
  | ok r =>
    obtain ⟨s, hs⟩ := h r rfl
    subst hs
    rfl
  | error e => rfl

lemma listContainersTool_text (w : World) (p : ListContainersParams) :
    isSingleTextOk (listContainersTool.run w p) = true := by
  show isSingleTextOk (catchToText _ _ (listContainersBody w p)) = true
  apply isSingleTextOk_catch
  intro r h
  unfold listContainersBody at h
  repeat' split at h
  all_goals (try (injection h with h2; exact ⟨_, h2.symm⟩))
  all_goals injection h

lemma getContainerInfoTool_text (w : World) (p : ContainerInfoParams) :
    isSingleTextOk (getContainerInfoTool.run w p) = true := by
  show isSingleTextOk (catchToText _ _ (getContainerInfoBody w p)) = true
  apply isSingleTextOk_catch
  intro r h
  unfold getContainerInfoBody at h
  repeat' split at h
  all_goals (try (injection h with h2; exact ⟨_, h2.symm⟩))
  all_goals injection h

lemma getComposeFileTool_text (w : World) (p : ComposeParams) :
    isSingleTextOk (getComposeFileTool.run w p) = true := by
  show isSingleTextOk (catchToText _ _ (getComposeFileBody w p)) = true
  apply isSingleTextOk_catch
  intro r h
  unfold getComposeFileBody at h
  repeat' split at h
  all_goals (try (injection h with h2; exact ⟨_, h2.symm⟩))
  all_goals injection h

lemma execTool_text (w : World) (p : ExecParams) :
    isSingleTextOk (execTool.run w p) = true := by
  show isSingleTextOk (execHandlerFull w p).1 = true
  unfold execHandlerFull
  repeat' split
  all_goals rfl

lemma ceExecTool_text (w : World) (p : CeExecParams) :
    isSingleTextOk (ceExecTool.run w p) = true := by
  show isSingleTextOk (ceExecBody w p).result = true
  unfold ceExecBody
  repeat' split
  all_goals rfl

lemma readFileTool_text (w : World) (p : ReadFileParams) :
    isSingleTextOk (readFileTool.run w p) = true := by
  show isSingleTextOk (catchToText _ _ (readFileBody w p).result) = true
  apply isSingleTextOk_catch
  intro r h
  unfold readFileBody at h
  repeat' split at h
  all_goals dsimp only at h
  all_goals (try (injection h with h2; exact ⟨_, h2.symm⟩))
  all_goals injection h

lemma ceGetComposeTool_text (w : World) (p : ComposeParams) :
    isSingleTextOk (ceGetComposeTool.run w p) = true := by
  show isSingleTextOk (catchToText _ _ (ceGetComposeFileBody w p).result) = true
  apply isSingleTextOk_catch
  intro r h
  unfold ceGetComposeFileBody at h
  repeat' split at h
  all_goals dsimp only at h
  all_goals (try (injection h with h2; exact ⟨_, h2.symm⟩))
  all_goals injection h

lemma writeFileTool_text (w : World) (p : WriteFileParams) :
    isSingleTextOk (writeFileTool.run w p) = true := by
  show isSingleTextOk (catchToText _ _ (writeFileBody w p).result) = true
  apply isSingleTextOk_catch
  intro r h
  unfold writeFileBody at h
  repeat' split at h
  all_goals dsimp only at h
  all_goals (try (injection h with h2; exact ⟨_, h2.symm⟩))
  all_goals injection h

lemma searchReplaceTool_text (w : World) (p : SearchReplaceParams) :
    isSingleTextOk (searchReplaceTool.run w p) = true := by
  show isSingleTextOk (catchToText _ _ (searchReplaceBody w p).result) = true
  apply isSingleTextOk_catch
  intro r h
  unfold searchReplaceBody at h
  repeat' split at h
  all_goals dsimp only at h
  all_goals (try (injection h with h2; exact ⟨_, h2.symm⟩))
  all_goals injection h

lemma listDirTool_text (w : World) (p : ListDirParams) :
    isSingleTextOk (listDirTool.run w p) = true := by
  show isSingleTextOk (catchToText _ _ (listDirBody w p).result) = true
  apply isSingleTextOk_catch
  intro r h
  unfold listDirBody at h
  repeat' split at h
  all_goals dsimp only at h
  all_goals (try (injection h with h2; exact ⟨_, h2.symm⟩))
  all_goals injection h

lemma grepTool_text (w : World) (p : GrepParams) :
    isSingleTextOk (grepTool.run w p) = true := by
  show isSingleTextOk (catchToText _ _ (grepBody w p).result) = true
  apply isSingleTextOk_catch
  intro r h
  unfold grepBody at h
  repeat' split at h
  all_goals dsimp only at h
  all_goals (try (injection h with h2; exact ⟨_, h2.symm⟩))
  all_goals injection h

lemma findFilesTool_text (w : World) (p : FindFilesParams) :
    isSingleTextOk (findFilesTool.run w p) = true := by
  show isSingleTextOk (catchToText _ _ (findFilesBody w p).result) = true
  apply isSingleTextOk_catch
  intro r h
  unfold findFilesBody at h
  repeat' split at h
  all_goals dsimp only at h
  all_goals (try (injection h with h2; exact ⟨_, h2.symm⟩))
  all_goals injection h

lemma deleteFileTool_text (w : World) (p : DeleteFileParams) :
    isSingleTextOk (deleteFileTool.run w p) = true := by
  show isSingleTextOk (catchToText _ _ (deleteFileBody w p).result) = true
  apply isSingleTextOk_catch
  intro r h
  unfold deleteFileBody at h
  repeat' split at h
  all_goals dsimp only at h
  all_goals (try (injection h with h2; exact ⟨_, h2.symm⟩))
  all_goals injection h

lemma shellTool_text (w : World) (p : ShellParams) :
    isSingleTextOk (shellTool.run w p) = true := rfl

/-- C4: every registered tool handler, under every behaviour of the Docker
API, the host filesystem, the container shell and the timeout race, returns
a normal `CallToolResult` whose content is a single text message — no
handler ever propagates an exception to the protocol layer. -/
theorem handlers_never_throw (t : RegisteredTool) (ht : t ∈ allRegisteredTools)
    (w : World) (p : t.Params) : isSingleTextOk (t.run w p) = true := by
  unfold allRegisteredTools AVAILABLE_TOOLS AVAILABLE_TOOLS_COMPOSE codeEditingTools at ht
  simp only [List.mem_append, List.mem_cons, List.not_mem_nil, or_false] at ht
  rcases ht with (((rfl | rfl | rfl) | (rfl | rfl)) | (rfl | rfl | rfl | rfl | rfl | rfl | rfl | rfl | rfl | rfl))
  · exact execTool_text w p
  · exact listContainersTool_text w p
  · exact getContainerInfoTool_text w p
  · exact execTool_text w p
  · exact getComposeFileTool_text w p
  · exact ceExecTool_text w p
  · exact ceGetComposeTool_text w p
  · exact readFileTool_text w p
  · exact writeFileTool_text w p
  · exact searchReplaceTool_text w p
  · exact listDirTool_text w p
  · exact grepTool_text w p
  · exact findFilesTool_text w p
  · exact deleteFileTool_text w p
  · exact shellTool_text w p

/-- A concrete container inspect record used by the witnesses. -/
def demoInspectInfo : InspectInfo :=
  ⟨str ("abc123def456"), [slashChar] ++ str ("demo"), str ("2024-01-01"),
   ⟨str ("img"), [], none, none, [], []⟩,
   ⟨str ("running"), true, false, false, 1, 0, [], []⟩,
   ⟨0, 0, 0, none⟩, ⟨[], [], [], []⟩, []⟩

/-- A concrete world used by the witnesses: the target container runs, the
shell behaves, the host filesystem is empty. -/
def demoWorld : World :=
  { inspect := fun _ => Except.ok demoInspectInfo
    listContainersApi := fun _ => Except.ok []
    runExec := fun _ => Except.ok ([], some 0)
    timerWins := false
    hostRead := fun _ => Except.error JSException.other
    cwd := [slashChar] ++ str ("srv")
    target := str ("tgt")
    fs := [([slashChar] ++ str ("a.txt"), str ("ab"))]
    execErr := fun _ => none
    fallback := fun _ => ⟨[], [], some 0⟩ }

/-- Witness for C4: the registered `read_file` tool at a concrete world and
parameters produces a single-text normal result. -/
theorem handlers_never_throw_witness :
    isSingleTextOk (readFileTool.run demoWorld
      ⟨[slashChar] ++ str ("a.txt"), none, none⟩) = true :=
  handlers_never_throw readFileTool
    (by unfold allRegisteredTools AVAILABLE_TOOLS AVAILABLE_TOOLS_COMPOSE codeEditingTools; simp)
    demoWorld ⟨[slashChar] ++ str ("a.txt"), none, none⟩

/-- C5: if the race is settled by the command (not the timer) and container
inspection reports `State.Running` false, the exec tool returns the error
text derived from "Container '<id>' is not running" and performs no exec
creation or start — the only Docker action is the inspect call. -/
theorem exec_not_running_no_exec (w : World) (p : ExecParams) (info : InspectInfo)
    (hrace : w.timerWins = false)
    (hins : w.inspect p.container_id = Except.ok info)
    (hrun : info.State.Running = false) :
    execHandlerFull w p =
      (Except.ok (textResult (str ("Execution error: ")
        ++ (str ("Container ") ++ [squote] ++ p.container_id ++ [squote]
            ++ str (" is not running")))),
       [DockerAction.inspectC p.container_id]) := by
  unfold execHandlerFull executeDockerCommand
  rw [hins, hrace]
  simp [hrun, messageOr]

/-- A stopped variant of the demo inspect record. -/
def demoStoppedInfo : InspectInfo :=
  { demoInspectInfo with State := { demoInspectInfo.State with Running := false } }

/-- A world whose target container is stopped. -/
def demoStoppedWorld : World :=
  { demoWorld with inspect := fun _ => Except.ok demoStoppedInfo }

/-- Concrete exec-tool parameters used by the witnesses. -/
def demoExecParams : ExecParams :=
  ⟨str ("tgt"), str ("ls"), none, str ("/home/ubuntu/workspace"), none, none, 30⟩

/-- Witness for C5 at a concrete stopped container. -/
theorem exec_not_running_no_exec_witness :
    execHandlerFull demoStoppedWorld demoExecParams =
      (Except.ok (textResult (str ("Execution error: ")
        ++ (str ("Container ") ++ [squote] ++ str ("tgt") ++ [squote]
            ++ str (" is not running")))),
       [DockerAction.inspectC (str ("tgt"))]) :=
  exec_not_running_no_exec demoStoppedWorld demoExecParams demoStoppedInfo rfl rfl rfl

/-- C6: the exec handler races the Docker command against the timeout
timer: when the timer fires first the caller receives the text "Execution
error: Command timeout"; when the command completes first its formatted
stdout/stderr/exit-code output is returned; and an omitted `timeout`
parameter defaults to 30 seconds. -/
theorem exec_race_timeout (w : World) (p : ExecParams) :
    (w.timerWins = true →
      (execHandlerFull w p).1
        = Except.ok (textResult (str ("Execution error: Command timeout"))))
  ∧ (∀ r : ExecResult, w.timerWins = false →
      (executeDockerCommand w p.container_id p.command p.stdin
          (some p.working_dir) p.user p.env).1 = Except.ok r →
      (execHandlerFull w p).1 = Except.ok (textResult (formatExecOutput r)))
  ∧ (∀ q : ExecRawParams, q.timeout = none → (applyExecDefaults q).timeout = 30) := by
  refine ⟨?_, ?_, ?_⟩
  · intro h
    unfold execHandlerFull
    rw [h]
    simp [messageOr, show str ("Execution error: ") ++ str ("Command timeout")
        = str ("Execution error: Command timeout") from by decide]
  · intro r h hx
    unfold execHandlerFull
    rw [h]
    simp [hx]
  · intro q hq
    simp [applyExecDefaults, hq]

/-- A world whose timer always fires first. -/
def demoTimerWorld : World := { demoWorld with timerWins := true }

/-- Witness for C6 in both directions: a timer win yields the timeout text,
and a completed command yields its formatted result. -/
theorem exec_race_timeout_witness :
    (execHandlerFull demoTimerWorld demoExecParams).1
        = Except.ok (textResult (str ("Execution error: Command timeout")))
    ∧ (execHandlerFull demoWorld demoExecParams).1
        = Except.ok (textResult (formatExecOutput ⟨[], [], some 0⟩)) := by
  constructor
  · exact (exec_race_timeout demoTimerWorld demoExecParams).1 rfl
  · apply (exec_race_timeout demoWorld demoExecParams).2.1 ⟨[], [], some 0⟩ rfl
    simp [executeDockerCommand, demoWorld, demoInspectInfo, demoExecParams,
      parseDockerStream_shortTail [] (by decide)]

/-- Outcome of the HTTP auth middleware: pass the request to the MCP
dispatcher, or reject it with an HTTP status. -/
inductive AuthOutcome where
  | pass : AuthOutcome
  | reject401 : AuthOutcome
  | reject403 : AuthOutcome
deriving DecidableEq

/-- `authMiddleware` from the HTTP server (src/unnamed/part_001 lines
26-64). `envToken` is `process.env.MCP_AUTH_TOKEN` (`none` = unset) and
`header` the request's Authorization header; JavaScript truthiness makes an
empty configured token skip authentication, and a header starting with
"Bearer " is stripped before comparison. -/
def authMiddleware (envToken : Option (List Char)) (header : Option (List Char)) :
    AuthOutcome :=
  match envToken with
  | none => AuthOutcome.pass
  | some t =>
    if t = [] then AuthOutcome.pass
    else
      match header with
      | none => AuthOutcome.reject401
      | some h =>
        if (if List.isPrefixOf (str ("Bearer ")) h then h.drop 7 else h) = t then
          AuthOutcome.pass
        else AuthOutcome.reject403

/-- The pass-condition C7 asserts whenever the token is set: the request
reaches the dispatcher iff the Authorization header, taken either raw or
with a leading "Bearer " prefix stripped, equals the configured token. -/
def c7PassCondition : Prop :=
  ∀ (t : List Char) (h : Option (List Char)),
    (authMiddleware (some t) h = AuthOutcome.pass ↔
      (∃ raw, h = some raw ∧
        (raw = t ∨ (List.isPrefixOf (str ("Bearer ")) raw ∧ raw.drop 7 = t))))

/-- C7 counterexample: with the token set to "Bearer x" and the header
exactly "Bearer x", the raw header equals the token so the claim demands
passage, but the middleware strips the prefix, compares "x" with
"Bearer x" and rejects with 403. -/
theorem authMiddleware_claim_false : ¬ c7PassCondition := by
  intro hcl
  have h := (hcl (str ("Bearer x")) (some (str ("Bearer x")))).mpr
    ⟨str ("Bearer x"), rfl, Or.inl rfl⟩
  exact absurd h (by decide)

/-- C7 (amended): when MCP_AUTH_TOKEN is set to a nonempty string, a
request reaches the dispatcher iff its Authorization header, with a leading
"Bearer " prefix stripped when present (raw otherwise), equals the token;
a missing header is rejected 401 and a non-matching one 403; when the
variable is unset or set to the empty string, every request passes. -/
theorem authMiddleware_spec (t : List Char) (h : Option (List Char)) (hne : t ≠ []) :
    (authMiddleware (some t) h = AuthOutcome.pass ↔
      (∃ raw, h = some raw ∧
        (if List.isPrefixOf (str ("Bearer ")) raw then raw.drop 7 else raw) = t))
  ∧ (h = none → authMiddleware (some t) h = AuthOutcome.reject401)
  ∧ (∀ raw, h = some raw →
      (if List.isPrefixOf (str ("Bearer ")) raw then raw.drop 7 else raw) ≠ t →
      authMiddleware (some t) h = AuthOutcome.reject403)
  ∧ authMiddleware none h = AuthOutcome.pass
  ∧ authMiddleware (some []) h = AuthOutcome.pass := by
  refine ⟨?_, ?_, ?_, rfl, by simp [authMiddleware]⟩
  · cases h with
    | none => simp [authMiddleware, hne]
    | some raw =>
      by_cases hm : (if List.isPrefixOf (str ("Bearer ")) raw then raw.drop 7 else raw) = t
      · simp [authMiddleware, hne, hm]
      · simp [authMiddleware, hne, hm]
  · intro hh
    subst hh
    simp [authMiddleware, hne]
  · intro raw hh hm
    subst hh
    simp only [List.isPrefixOf_iff_prefix] at hm
    simp [authMiddleware, hne, hm]

/-- Witness for C7 (amended) at a concrete token: a Bearer-prefixed header
passes; a missing header is rejected 401. -/
theorem authMiddleware_spec_witness :
    authMiddleware (some (str ("s3cret"))) (some (str ("Bearer s3cret"))) = AuthOutcome.pass
    ∧ authMiddleware (some (str ("s3cret"))) none = AuthOutcome.reject401 := by
  constructor
  · exact (authMiddleware_spec (str ("s3cret")) (some (str ("Bearer s3cret")))
      (by decide)).1.mpr ⟨str ("Bearer s3cret"), rfl, by decide⟩
  · exact (authMiddleware_spec (str ("s3cret")) none (by decide)).2.1 rfl

/-- The tool names the specification lists for the RPC surface (C8). -/
def specToolNames : List (List Char) :=
  [str ("execute-command"), str ("list-containers"), str ("inspect-container"),
   str ("read-file"), str ("write-file"), str ("replace-text"), str ("list-directory"),
   str ("search-text"), str ("find-files"), str ("delete-file"), str ("fetch-compose-file")]

/-- C8 counterexample: the spec's name "execute-command" is registered
nowhere, while the registered name "exec" appears in no entry of the spec's
list — so the registered name set is not the spec's list. -/
theorem toolNames_claim_false :
    (str ("execute-command")) ∈ specToolNames
    ∧ ¬ ((str ("execute-command")) ∈ (allRegisteredTools.map RegisteredTool.name))
    ∧ (str ("exec")) ∈ (allRegisteredTools.map RegisteredTool.name)
    ∧ ¬ ((str ("exec")) ∈ specToolNames) := by
  decide

/-- C8 (amended): the registered tool names are exec, list_containers,
get_container_info (container-server registry), exec, get_compose_file
(compose-variant registry), and exec, get_compose_file, read_file,
write_file, search_replace, list_dir, grep, find_files, delete_file, shell
(code-editing server); none of the names in the spec's list is
registered. -/
theorem toolNames_actual :
    AVAILABLE_TOOLS.map RegisteredTool.name
      = [str ("exec"), str ("list_containers"), str ("get_container_info")]
    ∧ AVAILABLE_TOOLS_COMPOSE.map RegisteredTool.name
      = [str ("exec"), str ("get_compose_file")]
    ∧ codeEditingTools.map RegisteredTool.name
      = [str ("exec"), str ("get_compose_file"), str ("read_file"), str ("write_file"),
         str ("search_replace"), str ("list_dir"), str ("grep"), str ("find_files"),
         str ("delete_file"), str ("shell")]
    ∧ (specToolNames.all (fun n =>
        (allRegisteredTools.map RegisteredTool.name).all (fun m => !(m == n)))) = true := by
  refine ⟨by decide, by decide, by decide, by decide⟩

lemma readWord_escaped (s rest : List Char) :
    readWord false (escapeShellArg s ++ rest)
      = Option.map (fun p => (s ++ p.1, p.2)) (readWord false rest) := by
  unfold escapeShellArg
  rw [show (squote :: (replaceCharAll squote quoteRepl s ++ [squote])) ++ rest
        = squote :: (replaceCharAll squote quoteRepl s ++ squote :: rest) from by simp,
      readWord_false_squote, readWord_escape_aux]

lemma readWord_space (r : List Char) :
    readWord false (spaceChar :: r) = some ([], spaceChar :: r) := by
  rw [readWord.eq_def]
  simp [show ¬ (spaceChar = squote) from by decide,
        show ¬ (spaceChar = bslash) from by decide]

lemma isPrefixOf_self_append (l m : List Char) : List.isPrefixOf l (l ++ m) = true := by
  induction l with
  | nil => simp [List.isPrefixOf]
  | cons a t ih => simp [List.isPrefixOf, ih]

lemma isPrefixOf_cons_false (a b : Char) (l m : List Char) (h : (a == b) = false) :
    List.isPrefixOf (a :: l) (b :: m) = false := by
  simp [List.isPrefixOf]
  intro hc
  simp [hc] at h

lemma splitOnChar_ne_nil (sep : Char) (s : List Char) : splitOnChar sep s ≠ [] := by
  induction s with
  | nil => simp [splitOnChar]
  | cons c r ih =>
    rw [splitOnChar]
    by_cases hc : c = sep
    · simp [hc]
    · rw [if_neg hc]
      cases h : splitOnChar sep r with
      | nil => exact absurd h ih
      | cons l ls => simp

lemma splitOnChar_append_sep (sep : Char) (u v : List Char) :
    splitOnChar sep (u ++ sep :: v) = splitOnChar sep u ++ splitOnChar sep v := by
  induction u with
  | nil => simp [splitOnChar]
  | cons c u' ih =>
    by_cases hc : c = sep
    · subst hc
      simp [splitOnChar, ih]
    · rw [List.cons_append, splitOnChar, if_neg hc, ih, splitOnChar, if_neg hc]
      cases h : splitOnChar sep u' with
      | nil => exact absurd h (splitOnChar_ne_nil sep u')
      | cons l ls => rfl

lemma joinLines_split (s : List Char) : joinLines (splitLines s) = s := by
  induction s with
  | nil => rfl
  | cons c r ih =>
    unfold splitLines at ih ⊢
    rw [splitOnChar]
    by_cases hc : c = nlChar
    · subst hc
      rw [if_pos rfl]
      cases h : splitOnChar nlChar r with
      | nil => exact absurd h (splitOnChar_ne_nil nlChar r)
      | cons l ls =>
        rw [h] at ih
        unfold joinLines joinSep
        rw [show joinSep [nlChar] (l :: ls) = joinLines (l :: ls) from rfl, ih]
        simp
    · rw [if_neg hc]
      cases h : splitOnChar nlChar r with
      | nil => exact absurd h (splitOnChar_ne_nil nlChar r)
      | cons l ls =>
        rw [h] at ih
        cases ls with
        | nil =>
          unfold joinLines joinSep at ih ⊢
          simp [ih]
        | cons l2 ls2 =>
          unfold joinLines joinSep at ih ⊢
          simp only [List.cons_append]
          rw [ih]

lemma takeWhile_marker (ls : List (List Char)) (h : ¬ (heredocMarker ∈ ls)) :
    (ls ++ [heredocMarker]).takeWhile (fun l => !(l == heredocMarker)) = ls := by
  induction ls with
  | nil => simp [List.takeWhile]
  | cons l ls' ih =>
    have hl : ¬ (l = heredocMarker) := by
      intro he
      exact h (by simp [he])
    have hb : (!(l == heredocMarker)) = true := by simp [hl]
    simp only [List.cons_append, List.takeWhile, hb]
    exact congrArg (l :: ·) (ih (fun hm => h (by simp [hm])))

lemma isPrefixOf_append_left (l a b : List Char) :
    List.isPrefixOf (l ++ a) (l ++ b) = List.isPrefixOf a b := by
  induction l with
  | nil => rfl
  | cons c t ih => simp [List.isPrefixOf, ih]

lemma parseTestFileCmd_test (path : List Char) :
    parseTestFileCmd (testFileCmd path) = some path := by
  unfold parseTestFileCmd testFileCmd
  rw [show List.isPrefixOf (str ("test -f ")) (str ("test -f ") ++ escapeShellArg path
        ++ str (" && echo \"exists\" || echo \"not found\"")) = true from
        isPrefixOf_self_append _ _,
      show (8 : Nat) = (str ("test -f ")).length from by decide,
      show List.drop (str ("test -f ")).length (str ("test -f ") ++ escapeShellArg path
          ++ str (" && echo \"exists\" || echo \"not found\""))
        = escapeShellArg path ++ str (" && echo \"exists\" || echo \"not found\"") from
        List.drop_left _ _,
      readWord_escaped,
      show readWord false (str (" && echo \"exists\" || echo \"not found\""))
        = some ([], str (" && echo \"exists\" || echo \"not found\"")) from by decide]
  simp

lemma parseTestFileCmd_cat (path : List Char) :
    parseTestFileCmd (catFileCmd path) = none := by
  have htf : List.isPrefixOf (str ("test -f ")) (catFileCmd path) = false := by
    unfold catFileCmd
    rw [show str ("cat ") ++ escapeShellArg path = 'c' :: (str ("at ") ++ escapeShellArg path)
          from by rw [show str ("cat ") = 'c' :: str ("at ") from by decide]; rfl,
        show str ("test -f ") = 't' :: str ("est -f ") from by decide]
    exact isPrefixOf_cons_false _ _ _ _ (by decide)
  unfold parseTestFileCmd
  rw [htf]
  simp

lemma parseWriteCmd_cat (path : List Char) :
    parseWriteCmd (catFileCmd path) = none := by
  have hgt : List.isPrefixOf (str ("cat > ")) (catFileCmd path) = false := by
    unfold catFileCmd
    rw [show escapeShellArg path
          = squote :: (replaceCharAll squote quoteRepl path ++ [squote]) from rfl,
        show str ("cat > ") = str ("cat ") ++ str ("> ") from by decide,
        isPrefixOf_append_left,
        show str ("> ") = '>' :: str (" ") from by decide]
    exact isPrefixOf_cons_false _ _ _ _ (by decide)
  unfold parseWriteCmd
  rw [hgt]
  simp

lemma parseCatCmd_cat (path : List Char) :
    parseCatCmd (catFileCmd path) = some path := by
  have hgt : List.isPrefixOf (str ("cat > ")) (catFileCmd path) = false := by
    unfold catFileCmd
    rw [show escapeShellArg path
          = squote :: (replaceCharAll squote quoteRepl path ++ [squote]) from rfl,
        show str ("cat > ") = str ("cat ") ++ str ("> ") from by decide,
        isPrefixOf_append_left,
        show str ("> ") = '>' :: str (" ") from by decide]
    exact isPrefixOf_cons_false _ _ _ _ (by decide)
  unfold parseCatCmd
  rw [hgt,
      show catFileCmd path = str ("cat ") ++ escapeShellArg path from rfl,
      show List.isPrefixOf (str ("cat ")) (str ("cat ") ++ escapeShellArg path) = true from
        isPrefixOf_self_append _ _,
      show (4 : Nat) = (str ("cat ")).length from by decide,
      List.drop_left,
      show escapeShellArg path = escapeShellArg path ++ [] from by simp,
      readWord_escaped,
      show readWord false ([] : List Char) = some ([], []) from by decide]
  simp

lemma interp_testFile (fs : ContainerFS) (path : List Char) :
    interpShell fs (testFileCmd path)
      = some (⟨(if (lookupFS fs path).isSome then str ("exists") else str ("not found"))
                ++ [nlChar], [], some 0⟩, fs) := by
  unfold interpShell
  rw [parseTestFileCmd_test]

lemma interp_catFile (fs : ContainerFS) (path : List Char) :
    interpShell fs (catFileCmd path)
      = some ((match lookupFS fs path with
               | some c => ⟨c, [], some 0⟩
               | none => ⟨[], str ("cat: ") ++ path
                   ++ str (": No such file or directory") ++ [nlChar], some 1⟩), fs) := by
  unfold interpShell
  rw [parseTestFileCmd_cat, parseWriteCmd_cat, parseCatCmd_cat]

lemma heredocContent_no_marker (contents : List Char)
    (h : ¬ (heredocMarker ∈ splitLines contents)) :
    heredocContent (contents ++ [nlChar] ++ heredocMarker) = contents ++ [nlChar] := by
  unfold heredocContent
  rw [show contents ++ [nlChar] ++ heredocMarker = contents ++ nlChar :: heredocMarker
        from by simp]
  show (match ((splitOnChar nlChar (contents ++ nlChar :: heredocMarker)).takeWhile
      (fun l => !(l == heredocMarker))) with
    | [] => []
    | l :: ls => joinLines (l :: ls) ++ [nlChar]) = contents ++ [nlChar]
  rw [splitOnChar_append_sep,
      show splitOnChar nlChar heredocMarker = [heredocMarker] from by decide,
      takeWhile_marker (splitOnChar nlChar contents) h]
  cases hs : splitOnChar nlChar contents with
  | nil => exact absurd hs (splitOnChar_ne_nil _ _)
  | cons l ls =>
    have hjoin : joinLines (l :: ls) = contents := by
      rw [← hs]
      exact joinLines_split contents
    dsimp only
    rw [hjoin]

lemma parseTestFileCmd_write (path contents : List Char) :
    parseTestFileCmd (writeFileCmd path contents) = none := by
  have htf : List.isPrefixOf (str ("test -f ")) (writeFileCmd path contents) = false := by
    unfold writeFileCmd
    rw [show str ("cat > ") ++ escapeShellArg path ++ str (" << ") ++ [squote] ++ heredocMarker
          ++ [squote] ++ [nlChar] ++ contents ++ [nlChar] ++ heredocMarker
        = 'c' :: (str ("at > ") ++ escapeShellArg path ++ str (" << ") ++ [squote]
          ++ heredocMarker ++ [squote] ++ [nlChar] ++ contents ++ [nlChar] ++ heredocMarker)
        from by rw [show str ("cat > ") = 'c' :: str ("at > ") from by decide]; rfl,
        show str ("test -f ") = 't' :: str ("est -f ") from by decide]
    exact isPrefixOf_cons_false _ _ _ _ (by decide)
  unfold parseTestFileCmd
  rw [htf]
  simp

lemma writeFileCmd_decomp (path contents : List Char) :
    writeFileCmd path contents
      = str ("cat > ") ++ (escapeShellArg path
          ++ (heredocIntro ++ (contents ++ [nlChar] ++ heredocMarker))) := by
  unfold writeFileCmd heredocIntro
  simp

lemma readWord_heredocIntro (b : List Char) :
    readWord false (heredocIntro ++ b) = some ([], heredocIntro ++ b) := by
  have heq : heredocIntro ++ b = spaceChar :: (str ("<< ") ++ [squote] ++ heredocMarker
      ++ [squote] ++ [nlChar] ++ b) := by
    unfold heredocIntro
    rw [show str (" << ") = spaceChar :: str ("<< ") from by decide]
    simp
  rw [heq, readWord_space, ← heq]

lemma parseWriteCmd_write (path contents : List Char) :
    parseWriteCmd (writeFileCmd path contents)
      = some (path, contents ++ [nlChar] ++ heredocMarker) := by
  rw [writeFileCmd_decomp]
  unfold parseWriteCmd
  rw [show List.isPrefixOf (str ("cat > ")) (str ("cat > ") ++ (escapeShellArg path
        ++ (heredocIntro ++ (contents ++ [nlChar] ++ heredocMarker)))) = true from
        isPrefixOf_self_append _ _,
      show (6 : Nat) = (str ("cat > ")).length from by decide,
      show List.drop (str ("cat > ")).length (str ("cat > ") ++ (escapeShellArg path
          ++ (heredocIntro ++ (contents ++ [nlChar] ++ heredocMarker))))
        = escapeShellArg path ++ (heredocIntro ++ (contents ++ [nlChar] ++ heredocMarker))
        from List.drop_left _ _,
      readWord_escaped, readWord_heredocIntro,
      show (24 : Nat) = heredocIntro.length from by decide]
  simp [isPrefixOf_self_append,
        show List.drop heredocIntro.length (heredocIntro
            ++ (contents ++ [nlChar] ++ heredocMarker))
          = contents ++ [nlChar] ++ heredocMarker from List.drop_left _ _]

lemma interp_writeFile (fs : ContainerFS) (path contents : List Char) :
    interpShell fs (writeFileCmd path contents)
      = some (⟨[], [], some 0⟩,
          insertFS fs path (heredocContent (contents ++ [nlChar] ++ heredocMarker))) := by
  unfold interpShell
  rw [parseTestFileCmd_write, parseWriteCmd_write]

lemma world_fs_update_self (w : World) : {w with fs := w.fs} = w := rfl

lemma ceExec_interp (w : World) (c : List Char) (info : InspectInfo) (r : ExecResult)
    (fs2 : ContainerFS)
    (hi : w.inspect w.target = Except.ok info) (hr : info.State.Running = true)
    (he : w.execErr c = none) (hs : interpShell w.fs c = some (r, fs2)) :
    ceExec w c = (Except.ok r, {w with fs := fs2}, [c]) := by
  unfold ceExec executeDockerCommandCE
  rw [hi]
  simp [hr, he, hs]

lemma ceExec_test_found (w : World) (path content : List Char) (info : InspectInfo)
    (hi : w.inspect w.target = Except.ok info) (hr : info.State.Running = true)
    (he : w.execErr (testFileCmd path) = none)
    (hlook : lookupFS w.fs path = some content) :
    ceExec w (testFileCmd path)
      = (Except.ok ⟨str ("exists") ++ [nlChar], [], some 0⟩, w, [testFileCmd path]) :=
  ceExec_interp w _ info _ _ hi hr he (by rw [interp_testFile, hlook]; simp)

lemma ceExec_test_missing (w : World) (path : List Char) (info : InspectInfo)
    (hi : w.inspect w.target = Except.ok info) (hr : info.State.Running = true)
    (he : w.execErr (testFileCmd path) = none)
    (hlook : lookupFS w.fs path = none) :
    ceExec w (testFileCmd path)
      = (Except.ok ⟨str ("not found") ++ [nlChar], [], some 0⟩, w, [testFileCmd path]) :=
  ceExec_interp w _ info _ _ hi hr he (by rw [interp_testFile, hlook]; simp)

lemma ceExec_cat_found (w : World) (path content : List Char) (info : InspectInfo)
    (hi : w.inspect w.target = Except.ok info) (hr : info.State.Running = true)
    (he : w.execErr (catFileCmd path) = none)
    (hlook : lookupFS w.fs path = some content) :
    ceExec w (catFileCmd path)
      = (Except.ok ⟨content, [], some 0⟩, w, [catFileCmd path]) :=
  ceExec_interp w _ info _ _ hi hr he (by rw [interp_catFile, hlook])

lemma ceExec_heredoc_write (w : World) (path contents : List Char) (info : InspectInfo)
    (hi : w.inspect w.target = Except.ok info) (hr : info.State.Running = true)
    (he : w.execErr (writeFileCmd path contents) = none) :
    ceExec w (writeFileCmd path contents)
      = (Except.ok ⟨[], [], some 0⟩,
         {w with fs :=
            insertFS w.fs path (heredocContent (contents ++ [nlChar] ++ heredocMarker))},
         [writeFileCmd path contents]) :=
  ceExec_interp w _ info _ _ hi hr he (interp_writeFile w.fs path contents)

/-- Modelled from the claim's words, for comparison with the code: the file
contents with the first occurrence of `pat` spliced out and `repl` inserted
verbatim in its place. -/
def specSpliceGo (pat repl : List Char) : List Char → List Char → Option (List Char)
  | _, [] => none
  | before, c :: rem =>
    if pat.isPrefixOf (c :: rem) then some (before ++ repl ++ (c :: rem).drop pat.length)
    else specSpliceGo pat repl (before ++ [c]) rem

/-- Modelled from the claim's words: `s` with exactly the first occurrence of
`pat` replaced by the literal string `repl` (identity when `pat` is absent). -/
def specReplaceOnce (s pat repl : List Char) : List Char :=
  match specSpliceGo pat repl [] s with
  | some res => res
  | none => s

/-- C10: search_replace path analysis (amended). On each error path — equal
old/new strings, missing file, non-unique old_string with replace_all false,
old_string absent — the handler returns the error text, issues no write
command inside the container (only the file test and cat, never a
`cat > ...` heredoc), and the world is unchanged; on the success path with
replace_all false the file is rewritten to the JavaScript
`content.replace(old_string, new_string)` result — which interprets `$`
escapes in new_string rather than splicing it verbatim — with a trailing
newline appended by the heredoc write, not to the verbatim splice the
original claim states. -/
theorem searchReplace_paths (w : World) (p : SearchReplaceParams) (info : InspectInfo)
    (hi : w.inspect w.target = Except.ok info)
    (hr : info.State.Running = true)
    (he : ∀ c, w.execErr c = none) :
    (p.old_string = p.new_string →
      searchReplaceBody w p
        = ⟨Except.ok (textResult (str ("Error: old_string and new_string must be different"))),
           w, []⟩)
  ∧ (¬ (p.old_string = p.new_string) → lookupFS w.fs p.file_path = none →
      searchReplaceBody w p
        = ⟨Except.ok (textResult (str ("Error: File not found: ") ++ p.file_path)),
           w, [testFileCmd p.file_path]⟩)
  ∧ (∀ content, ¬ (p.old_string = p.new_string) →
      lookupFS w.fs p.file_path = some content →
      p.replace_all = false → jsSplitLen content p.old_string - 1 > 1 →
      searchReplaceBody w p
        = ⟨Except.ok (textResult (str ("Error: old_string \"") ++ p.old_string
            ++ str ("\" is not unique in the file. Use replace_all=true or provide more context to make it unique."))),
           w, [testFileCmd p.file_path, catFileCmd p.file_path]⟩)
  ∧ (∀ content, ¬ (p.old_string = p.new_string) →
      lookupFS w.fs p.file_path = some content →
      ¬ (p.replace_all = false ∧ jsSplitLen content p.old_string - 1 > 1) →
      jsIncludes content p.old_string = false →
      searchReplaceBody w p
        = ⟨Except.ok (textResult (str ("Error: old_string \"") ++ p.old_string
            ++ str ("\" not found in file"))),
           w, [testFileCmd p.file_path, catFileCmd p.file_path]⟩)
  ∧ (∀ content, ¬ (p.old_string = p.new_string) →
      lookupFS w.fs p.file_path = some content →
      p.replace_all = false →
      ¬ (jsSplitLen content p.old_string - 1 > 1) →
      jsIncludes content p.old_string = true →
      ¬ (heredocMarker ∈ splitLines (jsReplaceOnce content p.old_string p.new_string)) →
      searchReplaceBody w p
        = ⟨Except.ok (textResult (str ("Successfully replaced ") ++ natToChars 1
            ++ str (" occurrence(s) in ") ++ p.file_path)),
           {w with fs :=
              insertFS w.fs p.file_path (jsReplaceOnce content p.old_string p.new_string ++ [nlChar])},
           [testFileCmd p.file_path, catFileCmd p.file_path,
            writeFileCmd p.file_path (jsReplaceOnce content p.old_string p.new_string)]⟩)
  ∧ (isWriteCmd (testFileCmd p.file_path) = false
      ∧ isWriteCmd (catFileCmd p.file_path) = false
      ∧ ∀ x, isWriteCmd (writeFileCmd p.file_path x) = true) := by
  refine ⟨?_, ?_, ?_, ?_, ?_, ?_, ?_, ?_⟩
  · intro h
    unfold searchReplaceBody
    rw [if_pos h]
  · intro hne hlook
    unfold searchReplaceBody
    rw [if_neg hne, ceExec_test_missing w p.file_path info hi hr (he _) hlook]
    dsimp only
    rw [show jsTrim (str ("not found") ++ [nlChar]) = str ("not found") from by decide,
        if_pos (show ¬ (str ("not found") = str ("exists")) from by decide)]
  · intro content hne hlook hra hgt
    unfold searchReplaceBody
    rw [if_neg hne, ceExec_test_found w p.file_path content info hi hr (he _) hlook]
    dsimp only
    rw [show jsTrim (str ("exists") ++ [nlChar]) = str ("exists") from by decide,
        if_neg (show ¬ ¬ (str ("exists") = str ("exists")) from by simp),
        ceExec_cat_found w p.file_path content info hi hr (he _) hlook]
    dsimp only
    rw [if_neg (show ¬ ¬ ((some 0 : Option Int) = some 0) from by simp),
        if_pos ⟨hra, hgt⟩]
    rfl
  · intro content hne hlook hnu hninc
    unfold searchReplaceBody
    rw [if_neg hne, ceExec_test_found w p.file_path content info hi hr (he _) hlook]
    dsimp only
    rw [show jsTrim (str ("exists") ++ [nlChar]) = str ("exists") from by decide,
        if_neg (show ¬ ¬ (str ("exists") = str ("exists")) from by simp),
        ceExec_cat_found w p.file_path content info hi hr (he _) hlook]
    dsimp only
    rw [if_neg (show ¬ ¬ ((some 0 : Option Int) = some 0) from by simp),
        if_neg hnu, if_pos hninc]
    rfl
  · intro content hne hlook hra hle hinc hmark
    unfold searchReplaceBody
    rw [if_neg hne, ceExec_test_found w p.file_path content info hi hr (he _) hlook]
    dsimp only
    rw [show jsTrim (str ("exists") ++ [nlChar]) = str ("exists") from by decide,
        if_neg (show ¬ ¬ (str ("exists") = str ("exists")) from by simp),
        ceExec_cat_found w p.file_path content info hi hr (he _) hlook]
    dsimp only
    rw [if_neg (show ¬ ¬ ((some 0 : Option Int) = some 0) from by simp),
        if_neg (show ¬ (p.replace_all = false ∧ jsSplitLen content p.old_string - 1 > 1)
          from fun hc => hle hc.2),
        if_neg (show ¬ (jsIncludes content p.old_string = false) from by simp [hinc]),
        hra]
    simp only [if_neg (show ¬ (false = true) from by decide)]
    rw [ceExec_heredoc_write w p.file_path
          (jsReplaceOnce content p.old_string p.new_string) info hi hr (he _)]
    dsimp only
    rw [if_neg (show ¬ ¬ ((some 0 : Option Int) = some 0) from by simp),
        heredocContent_no_marker _ hmark]
    rfl
  · unfold isWriteCmd testFileCmd
    rw [show str ("test -f ") ++ escapeShellArg p.file_path
          ++ str (" && echo \"exists\" || echo \"not found\"")
        = 't' :: (str ("est -f ") ++ escapeShellArg p.file_path
          ++ str (" && echo \"exists\" || echo \"not found\""))
        from by rw [show str ("test -f ") = 't' :: str ("est -f ") from by decide]; rfl,
        show str ("cat > ") = str ("cat ") ++ str ("> ") from by decide]
    rw [show str ("cat ") ++ str ("> ") = 'c' :: (str ("at ") ++ str ("> ")) from by decide]
    exact isPrefixOf_cons_false _ _ _ _ (by decide)
  · unfold isWriteCmd catFileCmd
    rw [show escapeShellArg p.file_path
          = squote :: (replaceCharAll squote quoteRepl p.file_path ++ [squote]) from rfl,
        show str ("cat > ") = str ("cat ") ++ str ("> ") from by decide,
        isPrefixOf_append_left,
        show str ("> ") = '>' :: str (" ") from by decide]
    exact isPrefixOf_cons_false _ _ _ _ (by decide)
  · intro x
    unfold isWriteCmd
    rw [writeFileCmd_decomp]
    exact isPrefixOf_self_append _ _

/-- Equality of handler results is decidable (needed to evaluate concrete
runs of the handler bodies). -/
instance : DecidableEq (Except JSException CallToolResult) := fun a b =>
  match a, b with
  | Except.ok x, Except.ok y =>
    if h : x = y then isTrue (congrArg Except.ok h)
    else isFalse (fun hc => h (Except.ok.inj hc))
  | Except.error x, Except.error y =>
    if h : x = y then isTrue (congrArg Except.error h)
    else isFalse (fun hc => h (Except.error.inj hc))
  | Except.ok _, Except.error _ => isFalse (fun hc => Except.noConfusion hc)
  | Except.error _, Except.ok _ => isFalse (fun hc => Except.noConfusion hc)

/-- Concrete search_replace parameters on the demo world's file `/a.txt`
(contents `ab`): replace `b` by `x$&y` once. -/
def srParams : SearchReplaceParams :=
  ⟨[slashChar] ++ str ("a.txt"), str ("b"), str ("x$&y"), false⟩

/-- C10 counterexample to the original claim: on the success path with a
unique occurrence, the file does not become the old contents with the
occurrence of old_string replaced by new_string. On the file `ab`,
replacing `b` by `x$&y` reports success, but the container file ends up as
`axby` plus a trailing newline — the JavaScript replace interprets the
`$&` escape in new_string and the heredoc write appends a newline — while
the claim's verbatim splice would give `ax$&y`. -/
theorem searchReplace_claim_false :
    (searchReplaceBody demoWorld srParams).result
        = Except.ok (textResult (str ("Successfully replaced ") ++ natToChars 1
            ++ str (" occurrence(s) in ") ++ ([slashChar] ++ str ("a.txt"))))
      ∧ lookupFS (searchReplaceBody demoWorld srParams).world.fs ([slashChar] ++ str ("a.txt"))
        = some (str ("axby") ++ [nlChar])
      ∧ specReplaceOnce (str ("ab")) (str ("b")) (str ("x$&y")) = str ("ax$&y")
      ∧ ¬ (str ("axby") ++ [nlChar] = str ("ax$&y")) := by
  decide

/-- Witness for the amended C10 theorem: the success path at the demo world,
replacing the unique `b` of `/a.txt` (contents `ab`) by `x$&y`. -/
theorem searchReplace_paths_witness :
    searchReplaceBody demoWorld srParams
      = ⟨Except.ok (textResult (str ("Successfully replaced ") ++ natToChars 1
            ++ str (" occurrence(s) in ") ++ ([slashChar] ++ str ("a.txt")))),
         {demoWorld with fs := insertFS demoWorld.fs ([slashChar] ++ str ("a.txt")) (jsReplaceOnce (str ("ab")) (str ("b")) (str ("x$&y")) ++ [nlChar])},
         [testFileCmd ([slashChar] ++ str ("a.txt")),
          catFileCmd ([slashChar] ++ str ("a.txt")),
          writeFileCmd ([slashChar] ++ str ("a.txt"))
            (jsReplaceOnce (str ("ab")) (str ("b")) (str ("x$&y")))]⟩ :=
  (searchReplace_paths demoWorld srParams demoInspectInfo rfl rfl (fun _ => rfl)).2.2.2.2.1
    (str ("ab")) (by decide) (by decide) rfl (by decide) (by decide) (by decide)
